import Mathlib

/-!
A shallow embedding of the IREC application validator (`src/irec.py`).

The Python program validates a paragraph stream sliced into sections
"Part 0" .. "Part 11"; each section validator extracts answers with
`re.search` over a handful of fixed pattern shapes and accumulates
`errors` / `warnings` / `info` lists plus a growing `required_forms`
list.  The regular expressions of the source all fall into a small
number of shapes (anchor literal, lazy gap, newline, alternation of
checkbox answers; anchor, lazy capture up to a stop literal or end;
label followed by the rest of the line; ...).  Each shape is embedded
below as a dedicated scanning function whose semantics is the Python
backtracking semantics of that shape (leftmost start, lazy gaps expand
minimally, alternatives tried in written order, `re.DOTALL` lets the
gap cross newlines while without it a gap stays on one line, `$` also
matches just before a final newline).  Python `datetime` values are
embedded as seconds of proleptic-Gregorian time.

Exceptions:  the source can raise `NameError` in `validate_part_8`
(locals `recordings_answer` / `identifiability_answer` are read on
paths where they were never assigned); that validator and the
orchestrator therefore return `Except String`.
-/

/-- One required supplementary form: the `form` display name and the
`reason` string recorded when the requirement fired (the dictionaries
appended to `required_forms` in the source). -/
structure RequiredForm where
  form : String
  reason : String
  deriving DecidableEq, Repr

/-- Per-section findings: the `errors`, `warnings` and `info` lists of the
source validators' `results` dictionary, in append order. -/
structure FindingSet where
  errors : List String := []
  warnings : List String := []
  info : List String := []
  deriving DecidableEq, Repr

def FindingSet.addErr (r : FindingSet) (m : String) : FindingSet :=
  { r with errors := r.errors ++ [m] }

def FindingSet.addWarn (r : FindingSet) (m : String) : FindingSet :=
  { r with warnings := r.warnings ++ [m] }

def FindingSet.addInfo (r : FindingSet) (m : String) : FindingSet :=
  { r with info := r.info ++ [m] }

/-- Python `str.isspace` characters relevant to `\s` in `re`. -/
def pyIsSpace (c : Char) : Bool :=
  c = ' ' || c = '\t' || c = '\n' || c = '\r' || c = '\x0b' || c = '\x0c'

/-- Whether `pat` is a prefix of `hay` (character by character). -/
def leadsWith : List Char → List Char → Bool
  | [], _ => true
  | _ :: _, [] => false
  | p :: ps, c :: cs => p == c && leadsWith ps cs

/-- Earliest index at or after the start of `hay` where `pat` occurs. -/
def findOccAux (pat : List Char) : List Char → Nat → Option Nat
  | [], i => if pat.isEmpty then some i else none
  | c :: cs, i => if leadsWith pat (c :: cs) then some i else findOccAux pat cs (i + 1)

/-- Earliest index `≥ i` in `hay` where `pat` occurs. -/
def findFrom (hay pat : List Char) (i : Nat) : Option Nat :=
  (findOccAux pat (hay.drop i) 0).map (· + i)

/-- Python substring membership `needle in hay`. -/
def pyIn (needle hay : String) : Bool :=
  (findOccAux needle.data hay.data 0).isSome

/-- Python `str.startswith`. -/
def pyStartsWith (s pre : String) : Bool := leadsWith pre.data s.data

/-- Python `str.strip()`. -/
def pyStrip (s : String) : String :=
  String.mk (((s.data.dropWhile pyIsSpace).reverse.dropWhile pyIsSpace).reverse)

/-- Python `str.lower()` (the texts are ASCII plus checkbox glyphs). -/
def pyLower (s : String) : String :=
  String.mk (s.data.map Char.toLower)

/-- Python `str.split()` with no separator: maximal runs of non-whitespace. -/
def pySplitAux : List Char → List Char → List String
  | [], acc => if acc.isEmpty then [] else [String.mk acc.reverse]
  | c :: cs, acc =>
    if pyIsSpace c then
      if acc.isEmpty then pySplitAux cs [] else String.mk acc.reverse :: pySplitAux cs []
    else pySplitAux cs (c :: acc)

def pySplit (s : String) : List String := pySplitAux s.data []

/-- Word characters of the regex class `\w` over the ASCII texts. -/
def isWordChar (c : Char) : Bool := c.isAlphanum || c = '_'

def countWordsAux : List Char → Bool → Nat
  | [], _ => 0
  | c :: cs, inWord =>
    let w := isWordChar c
    (if w && !inWord then 1 else 0) + countWordsAux cs w

/-- Embeds `count_words`: the number of `\b\w+\b` matches, i.e. the number
of maximal runs of word characters. -/
def count_words (s : String) : Nat := countWordsAux s.data false

/-- First alternative of `alts` (in written order) that matches at the head
of `hay` — the alternation part of a Python pattern. -/
def altAt (hay : List Char) : List String → Option String
  | [] => none
  | a :: rest => if leadsWith a.data hay then some a else altAt hay rest

/-- Earliest position where some alternative matches, alternatives tried in
written order at each position — the lazy-gap-then-alternation tail
`.*?(A|B|...)` of a `re.DOTALL` pattern. -/
def scanAlts (alts : List String) : List Char → Option String
  | [] => altAt [] alts
  | c :: t =>
    match altAt (c :: t) alts with
    | some a => some a
    | none => scanAlts alts t

/-- Python `re.search(anchor + ".*?\n.*?(A|B|...)", text, re.DOTALL)`: the
first anchor occurrence, the first newline after it, then the earliest
alternative after that newline. -/
def searchAnchorNlAlts (text anchor : String) (alts : List String) : Option String :=
  match findFrom text.data anchor.data 0 with
  | none => none
  | some a =>
    match findFrom text.data ['\n'] (a + anchor.data.length) with
    | none => none
    | some n => scanAlts alts (text.data.drop (n + 1))

/-- Python `re.search(anchor + ".*?(A|B|...)", text, re.DOTALL)`: the first
anchor occurrence, then the earliest alternative after it. -/
def searchDotallAlts (text anchor : String) (alts : List String) : Option String :=
  match findFrom text.data anchor.data 0 with
  | none => none
  | some a => scanAlts alts (text.data.drop (a + anchor.data.length))

/-- Python `re.search(anchor + ".*?(A|B|...)", text)` without `re.DOTALL`:
the gap cannot cross a newline, so the answer has to sit on the anchor's
line; anchor occurrences are tried left to right. -/
def searchLineAltsAux (anchor : List Char) (alts : List String) : List Char → Option String
  | [] => none
  | c :: t =>
    if leadsWith anchor (c :: t) then
      let line := ((c :: t).drop anchor.length).takeWhile (· ≠ '\n')
      match scanAlts alts line with
      | some a => some a
      | none => searchLineAltsAux anchor alts t
    else searchLineAltsAux anchor alts t

def searchLineAlts (text anchor : String) (alts : List String) : Option String :=
  searchLineAltsAux anchor.data alts text.data

/-- Python `re.search(anchor + "\s+.*?(A|B|...)", text, re.DOTALL)` (the
Part 1 review-type shape): an anchor occurrence followed by at least one
whitespace character, then the earliest alternative after it. -/
def searchWsAltsAux (anchor : List Char) (alts : List String) : List Char → Option String
  | [] => none
  | c :: t =>
    if leadsWith anchor (c :: t) then
      match (c :: t).drop anchor.length with
      | r :: rest2 =>
        if pyIsSpace r then
          match scanAlts alts rest2 with
          | some a => some a
          | none => searchWsAltsAux anchor alts t
        else searchWsAltsAux anchor alts t
      | [] => searchWsAltsAux anchor alts t
    else searchWsAltsAux anchor alts t

def searchWsAlts (text anchor : String) (alts : List String) : Option String :=
  searchWsAltsAux anchor.data alts text.data

/-- Lazy capture end for `(.*?)(stop|$)` starting at `start`: the earliest
`stop` occurrence, else just before a final newline (Python `$`), else the
end of the text. -/
def captureUntil (cs : List Char) (start : Nat) (stop : String) : String :=
  let e :=
    match findFrom cs stop.data start with
    | some s => s
    | none => if cs.getLast? = some '\n' then max start (cs.length - 1) else cs.length
  String.mk ((cs.take e).drop start)

/-- Python `re.search(anchor + ".*?\n(.*?)(stop|$)", text, re.DOTALL)`:
first anchor occurrence, first newline after it, lazy capture up to the
stop literal or the end. -/
def captureAnchorNl (text anchor stop : String) : Option String :=
  match findFrom text.data anchor.data 0 with
  | none => none
  | some a =>
    match findFrom text.data ['\n'] (a + anchor.data.length) with
    | none => none
    | some n => some (captureUntil text.data (n + 1) stop)

/-- Python `re.search(anchor + "(.*?)(stop|$)", text, re.DOTALL)`: the
capture starts directly after the anchor. -/
def captureAnchor (text anchor stop : String) : Option String :=
  match findFrom text.data anchor.data 0 with
  | none => none
  | some a => some (captureUntil text.data (a + anchor.data.length) stop)

/-- Last index of `w` holding a character other than a newline. -/
def lastNonNlIdx (w : List Char) : Option Nat :=
  match w with
  | [] => none
  | c :: t =>
    match lastNonNlIdx t with
    | some j => some (j + 1)
    | none => if c ≠ '\n' then some 0 else none

/-- Tail `\s*([^\n]+)` after a label: greedy whitespace, then at least one
non-newline character up to the end of that line; when only whitespace
remains Python backtracks into the run, capturing from its last
non-newline character (a whitespace-only capture the callers strip). -/
def fieldTail (rest : List Char) : Option String :=
  let w := rest.takeWhile pyIsSpace
  let rest2 := rest.drop w.length
  if rest2 ≠ [] then some (String.mk (rest2.takeWhile (· ≠ '\n')))
  else
    match lastNonNlIdx w with
    | some j => some (String.mk ((w.drop j).takeWhile (· ≠ '\n')))
    | none => none

/-- Tail `\s*([^\n]*)` after a label: greedy whitespace, then the rest of
the line (possibly empty). -/
def fieldTailStar (rest : List Char) : String :=
  String.mk ((rest.drop (rest.takeWhile pyIsSpace).length).takeWhile (· ≠ '\n'))

/-- Python `re.search(label + "\s*([^\n]+)", text)`: label occurrences are
tried left to right. -/
def fieldLineAux (label : List Char) : List Char → Option String
  | [] => none
  | c :: t =>
    if leadsWith label (c :: t) then
      match fieldTail ((c :: t).drop label.length) with
      | some v => some v
      | none => fieldLineAux label t
    else fieldLineAux label t

def fieldLine (text label : String) : Option String :=
  fieldLineAux label.data text.data

/-- Python `re.search(label + "\s*([^\n]*)", text)`: the star tail always
matches at the first label occurrence. -/
def fieldLineStar (text label : String) : Option String :=
  (findFrom text.data label.data 0).map
    (fun a => fieldTailStar (text.data.drop (a + label.data.length)))

/-- Python `re.search(anchor + ".*?\n\s*([^\n]*)", text)` without
`re.DOTALL`: skip to the end of the anchor's line, then the star tail. -/
def fieldNlStar (text anchor : String) : Option String :=
  match findFrom text.data anchor.data 0 with
  | none => none
  | some a =>
    match findFrom text.data ['\n'] (a + anchor.data.length) with
    | none => none
    | some n => some (fieldTailStar (text.data.drop (n + 1)))

/-- Python `re.search(anchor + ".*?:\s*([^\n]+)", text)` without
`re.DOTALL`: the first colon on the anchor's line after the anchor, then
the `\s*([^\n]+)` tail. -/
def fieldColonAux (anchor : List Char) : List Char → Option String
  | [] => none
  | c :: t =>
    if leadsWith anchor (c :: t) then
      let rest := (c :: t).drop anchor.length
      let line := rest.takeWhile (· ≠ '\n')
      match findFrom line [':'] 0 with
      | some k =>
        match fieldTail (rest.drop (k + 1)) with
        | some v => some v
        | none => fieldColonAux anchor t
      | none => fieldColonAux anchor t
    else fieldColonAux anchor t

def fieldColon (text anchor : String) : Option String :=
  fieldColonAux anchor.data text.data

/-- Python `re.search(label + "\s*(\d+)", text)`: label occurrences are
tried left to right; after the greedy whitespace run at least one digit
must follow. -/
def digitTail (rest : List Char) : Option String :=
  let d := (rest.drop (rest.takeWhile pyIsSpace).length).takeWhile Char.isDigit
  if d ≠ [] then some (String.mk d) else none

def fieldDigitsAux (label : List Char) : List Char → Option String
  | [] => none
  | c :: t =>
    if leadsWith label (c :: t) then
      match digitTail ((c :: t).drop label.length) with
      | some v => some v
      | none => fieldDigitsAux label t
    else fieldDigitsAux label t

def fieldDigits (text label : String) : Option String :=
  fieldDigitsAux label.data text.data

/-- Python `re.search(pre + "(☑|☐)" + post, text)` with `pre` ending in a
space (the Part 0 exemption-category shape): a checkbox glyph standing
between two literals. -/
def searchGlyphMidAux (pre post : List Char) : List Char → Option String
  | [] => none
  | c :: t =>
    if leadsWith pre (c :: t) then
      match (c :: t).drop pre.length with
      | g :: rest2 =>
        if (g == '☑' || g == '☐') && leadsWith post rest2 then some (String.mk [g])
        else searchGlyphMidAux pre post t
      | [] => searchGlyphMidAux pre post t
    else searchGlyphMidAux pre post t

def searchGlyphMid (text pre post : String) : Option String :=
  searchGlyphMidAux pre.data post.data text.data

/-- The paragraph-stream slice loop every validator starts with: begin
accumulating (paragraph text plus a newline) at the first paragraph
containing `startMark`, stop after a paragraph containing `stopMark`. -/
def sliceSectionAux (startMark stopMark : String) : List String → Bool → String → String
  | [], _, acc => acc
  | p :: rest, inside, acc =>
    let inside2 := inside || pyIn startMark p
    let acc2 := if inside2 then acc ++ p ++ "\n" else acc
    if pyIn stopMark p then acc2 else sliceSectionAux startMark stopMark rest inside2 acc2

def sliceSection (ps : List String) (startMark stopMark : String) : String :=
  sliceSectionAux startMark stopMark ps false ""

/-- The Part 11 slice: as `sliceSection` but with no stop marker. -/
def sliceToEndAux (startMark : String) : List String → Bool → String → String
  | [], _, acc => acc
  | p :: rest, inside, acc =>
    let inside2 := inside || pyIn startMark p
    let acc2 := if inside2 then acc ++ p ++ "\n" else acc
    sliceToEndAux startMark rest inside2 acc2

def sliceToEnd (ps : List String) (startMark : String) : String :=
  sliceToEndAux startMark ps false ""

/-- The checkbox-answer alternation `(Yes ☑|No ☑|Yes ☐|No ☐)` used by most
questions. -/
def ynAlts : List String := ["Yes ☑", "No ☑", "Yes ☐", "No ☐"]

/-- The `(N/A ☑|N/A ☐)` alternation. -/
def naAlts : List String := ["N/A ☑", "N/A ☐"]

/-- Python `"☐" in answer`. -/
def hasBox (ans : String) : Bool := pyIn "☐" ans

/-- Leap year of the proleptic-Gregorian calendar (Python `datetime`). -/
def isLeapYear (y : Nat) : Bool := (y % 4 == 0 && y % 100 != 0) || y % 400 == 0

def daysInMonth (y m : Nat) : Nat :=
  if m = 2 then (if isLeapYear y then 29 else 28)
  else if m = 4 || m = 6 || m = 9 || m = 11 then 30 else 31

def leapsBefore (y : Nat) : Nat := y / 4 - y / 100 + y / 400

/-- Days from 0001-01-01 (day 0) to January 1 of year `y`. -/
def daysBeforeYear (y : Nat) : Nat := 365 * (y - 1) + leapsBefore (y - 1)

def daysBeforeMonth (y m : Nat) : Nat :=
  (List.range (m - 1)).foldl (fun acc i => acc + daysInMonth y (i + 1)) 0

/-- A calendar date as Python `datetime.date` holds one. -/
structure PDate where
  year : Nat
  month : Nat
  day : Nat
  deriving DecidableEq, Repr

def PDate.validDate (d : PDate) : Bool :=
  1 ≤ d.year && d.year ≤ 9999 && 1 ≤ d.month && d.month ≤ 12 &&
    1 ≤ d.day && d.day ≤ daysInMonth d.year d.month

/-- Day number of a date, 0001-01-01 being day 0. -/
def PDate.toDays (d : PDate) : Nat :=
  daysBeforeYear d.year + daysBeforeMonth d.year d.month + (d.day - 1)

/-- A Python `datetime` instant is embedded as seconds of
proleptic-Gregorian time; `strptime` of a plain date yields midnight. -/
def PDate.toSeconds (d : PDate) : Int := 86400 * (d.toDays : Int)

def digitsToNat (ds : List Char) : Nat := ds.foldl (fun a c => 10 * a + (c.toNat - 48)) 0

/-- Python `datetime.strptime(s, "%m/%d/%Y")` as an optional date: one or
two digits, a slash, one or two digits, a slash, up to four digits
consuming the whole string, landing on a valid calendar date. -/
def parseMDY (s : String) : Option PDate :=
  let cs := s.data
  let md := (cs.takeWhile Char.isDigit).take 2
  match md, cs.drop md.length with
  | [], _ => none
  | _, '/' :: r2 =>
    let dd := (r2.takeWhile Char.isDigit).take 2
    match dd, r2.drop dd.length with
    | [], _ => none
    | _, '/' :: r4 =>
      let yd := (r4.takeWhile Char.isDigit).take 4
      if yd ≠ [] && r4.drop yd.length = [] then
        let d : PDate := ⟨digitsToNat yd, digitsToNat md, digitsToNat dd⟩
        if d.validDate then some d else none
      else none
    | _, _ => none
  | _, _ => none

/-- Python `datetime.strptime(s, "%m/%Y")` (`validate_date_format`) as an
optional (month, year) pair. -/
def parseMY (s : String) : Option (Nat × Nat) :=
  let cs := s.data
  let md := (cs.takeWhile Char.isDigit).take 2
  match md, cs.drop md.length with
  | [], _ => none
  | _, '/' :: r2 =>
    let yd := (r2.takeWhile Char.isDigit).take 4
    if yd ≠ [] && r2.drop yd.length = [] then
      let m := digitsToNat md
      let y := digitsToNat yd
      if 1 ≤ m && m ≤ 12 && 1 ≤ y && y ≤ 9999 then some (m, y) else none
    else none
  | _, _ => none

/-- The comparison `citi_date < datetime.now() - timedelta(days=3*365)` of
`validate_part_2`: the parsed training date (midnight) is more than 1095
days of seconds before the current instant. -/
def citiDateTooOld (now : Int) (d : PDate) : Bool :=
  d.toSeconds < now - 3 * 365 * 86400

/-- Python `validate_email`: `re.match(".+@.+\..+", email)`, i.e. an `@`
preceded by at least one character and followed by a dot that has at
least one character on each side. -/
def validate_email (email : String) : Bool :=
  let cs := email.data
  match findFrom cs ['@'] 1 with
  | none => false
  | some a =>
    match findFrom cs ['.'] (a + 2) with
    | none => false
    | some p => p + 1 < cs.length

/-- The six screening questions of Part 0; `appNeeded` is the per-question
closure deciding whether the found answer implies an application is
needed. -/
structure P0Question where
  text : String
  anchor : String
  appNeeded : String → Bool

def p0Questions : List P0Question :=
  [ { text := "Does your research involve human subjects?",
      anchor := "Does your research involve human subjects",
      appNeeded := fun a => pyStartsWith a "Yes" },
    { text := "Is this project being conducted solely to fulfill course requirements?",
      anchor := "Is this project being conducted solely to fulfill course requirements",
      appNeeded := fun a => pyStartsWith a "No" },
    { text := "Is this project a quality assurance activity?",
      anchor := "Is this project a quality assurance activity",
      appNeeded := fun a => pyStartsWith a "No" },
    { text := "Would you like to use this study to launch future investigations?",
      anchor := "Would you like to use this study to launch future investigations",
      appNeeded := fun a => pyStartsWith a "Yes" },
    { text := "Would you like to disseminate or publish findings?",
      anchor := "Would you like to disseminate or publish findings",
      appNeeded := fun a => pyStartsWith a "Yes" },
    { text := "Do you think this research is eligible for an Exemption?",
      anchor := "Do you think this research is eligible for an Exemption",
      appNeeded := fun _ => true } ]

/-- State threaded through the Part 0 question loop. -/
structure P0State where
  r : FindingSet
  application_needed : Bool
  exemption_claimed : Bool

/-- One iteration of the Part 0 question loop. -/
def p0Step (text : String) (st : P0State) (q : P0Question) : P0State :=
  match searchAnchorNlAlts text q.anchor ynAlts with
  | none =>
    { st with r := st.r.addErr ("Response to '" ++ q.text ++ "' not found or improperly formatted.") }
  | some ans =>
    if hasBox ans then
      { st with r := st.r.addWarn ("Checkbox for '" ++ q.text ++ "' is not marked (☐).") }
    else
      let st2 := { st with application_needed := st.application_needed || q.appNeeded ans }
      let st3 :=
        if q.text = "Do you think this research is eligible for an Exemption?" ∧ ans = "Yes ☑"
        then { st2 with exemption_claimed := true } else st2
      { st3 with r := st3.r.addInfo ("Response to '" ++ q.text ++ "': " ++ ans) }

/-- The exemption-justification block, entered only when the exemption
question was answered `Yes ☑`. -/
def p0ExemptionJust (text : String) (exemption_claimed : Bool) (r : FindingSet) : FindingSet :=
  if exemption_claimed then
    match captureAnchor text "Outline the reasons why your study should be considered exempt:" "Part 1:" with
    | some j =>
      if pyStrip j ≠ "" then r.addInfo "Exemption justification provided."
      else r.addWarn "Exemption claimed, but no justification provided."
    | none => r.addWarn "Exemption claimed, but no justification provided."
  else r

/-- The three exemption sub-categories as (name, literal before the glyph,
literal after the glyph). -/
def p0Categories : List (String × String × String) :=
  [ ("f1", "f1 ", " Research conducted in established or commonly accepted educational settings"),
    ("f2", "f2 ", " Research involving the use of educational tests"),
    ("f3", "f3 ", " Research involving the collection or study of existing data") ]

def p0CatStep (text : String) (r : FindingSet) (cat : String × String × String) : FindingSet :=
  match searchGlyphMid text cat.2.1 cat.2.2 with
  | none => r.addErr ("Exemption category '" ++ cat.1 ++ "' not found.")
  | some g =>
    if g = "☑" then
      r.addErr ("Exemption category '" ++ cat.1 ++ "' is checked. Must be unchecked (☐).")
    else r.addInfo ("Exemption category '" ++ cat.1 ++ "' is correctly unchecked (☐).")

def p0CategoriesStep (text : String) (r : FindingSet) : FindingSet :=
  p0Categories.foldl (p0CatStep text) r

def part0Marker : String := "Part 0: Do I Submit an NU IREC Application?"

/-- Body of `validate_part_0` on the section text. -/
def part0OfText (text : String) : FindingSet × Bool :=
  let st := p0Questions.foldl (p0Step text) ⟨{}, false, false⟩
  let r1 :=
    if st.application_needed then st.r
    else st.r.addErr "Part 0 responses indicate no application is needed."
  let r2 := p0ExemptionJust text st.exemption_claimed r1
  (p0CategoriesStep text r2, st.exemption_claimed)

/-- Embeds `validate_part_0`. -/
def validate_part_0 (ps : List String) : FindingSet × Bool :=
  let text := sliceSection ps part0Marker "Part 1: Cover Sheet"
  if text = "" then ({ errors := ["Part 0 section not found."] }, false)
  else part0OfText text

/-- The five labeled fields of Part 1 as (display name, label literal). -/
def p1Fields : List (String × String) :=
  [ ("Principal Investigator:", "Principal Investigator:"),
    ("Application Date:", "Application Date:"),
    ("Nazarbayev University Unit \\(School\\):", "Nazarbayev University Unit (School):"),
    ("Primary Research Discipline:", "Primary Research Discipline:"),
    ("Application Title:", "Application Title:") ]

def p1FieldStep (text : String) (r : FindingSet) (f : String × String) : FindingSet :=
  match fieldLine text f.2 with
  | none => r.addErr ("Field '" ++ f.1 ++ "' is missing or empty.")
  | some v =>
    if pyStrip v = "" then r.addErr ("Field '" ++ f.1 ++ "' is missing or empty.")
    else
      let value := pyStrip v
      let r2 := r.addInfo ("Field '" ++ f.1 ++ "' filled: " ++ value)
      if f.1 = "Application Date:" then
        if (parseMDY value).isSome then
          r2.addInfo "Application Date is in valid format (MM/DD/YYYY)."
        else r2.addErr "Application Date is not in valid format (MM/DD/YYYY)."
      else r2

def p1ReviewTypes : List String :=
  ["An Expedited Review", "A Full Board Review", "An Exemption"]

def p1ReviewStep (text : String) (st : FindingSet × List String) (rv : String) :
    FindingSet × List String :=
  match searchWsAlts text rv ynAlts with
  | none => (st.1.addErr ("Response to '" ++ rv ++ "' not found or improperly formatted."), st.2)
  | some ans =>
    let (r2, sel2) :=
      if hasBox ans then (st.1.addWarn ("Checkbox for '" ++ rv ++ "' is not marked (☐)."), st.2)
      else if ans = "Yes ☑" then (st.1, st.2 ++ [rv])
      else (st.1, st.2)
    (r2.addInfo ("Response to '" ++ rv ++ "': " ++ ans), sel2)

/-- Body of `validate_part_1` on the section text. -/
def part1OfText (text : String) (exemption_claimed : Bool) : FindingSet :=
  let r1 := p1Fields.foldl (p1FieldStep text) {}
  let (r2, sel) := p1ReviewTypes.foldl (p1ReviewStep text) (r1, [])
  let r3 :=
    match sel with
    | [s] =>
      if s ≠ "An Expedited Review" then
        r2.addErr ("School-level review requires 'An Expedited Review'. Selected: " ++ s ++ ".")
      else r2
    | _ => r2.addErr ("Exactly one review type must be selected. Found " ++ toString sel.length ++ ".")
  if sel.contains "An Exemption" && !exemption_claimed then
    r3.addErr "Exemption selected in Part 1, but Part 0 does not claim exemption."
  else r3

/-- Embeds `validate_part_1`. -/
def validate_part_1 (ps : List String) (exemption_claimed : Bool) : FindingSet :=
  let text := sliceSection ps "Part 1: Cover Sheet" "Part 2: Research Team Details"
  if text = "" then { errors := ["Part 1: Cover Sheet section not found."] }
  else part1OfText text exemption_claimed

/-- Scan for a newline followed by whitespace and then `label` (the
`\n\s*Label` step of the Part 2 block patterns: the label stands where
the whitespace run ends, a label starting with a non-space character),
then the `\s*([^\n]+)` value tail. -/
def nlWsLabelScan (label : List Char) : List Char → Option String
  | [] => none
  | c :: t =>
    if c = '\n' then
      let w := t.takeWhile pyIsSpace
      let rest2 := t.drop w.length
      if leadsWith label rest2 then
        match fieldTail (rest2.drop label.length) with
        | some v => some v
        | none => nlWsLabelScan label t
      else nlWsLabelScan label t
    else nlWsLabelScan label t

/-- Python `re.search(anchor + "\s*\n\s*" + label + "\s*([^\n]+)", text,
re.DOTALL)`: the anchor is followed by a whitespace run containing a
newline with the label right after it. -/
def blockFieldDirectAux (anchor label : List Char) : List Char → Option String
  | [] => none
  | c :: t =>
    if leadsWith anchor (c :: t) then
      let rest := (c :: t).drop anchor.length
      let w := rest.takeWhile pyIsSpace
      let rest2 := rest.drop w.length
      if w.contains '\n' && leadsWith label rest2 then
        match fieldTail (rest2.drop label.length) with
        | some v => some v
        | none => blockFieldDirectAux anchor label t
      else blockFieldDirectAux anchor label t
    else blockFieldDirectAux anchor label t

def blockFieldDirect (text anchor label : String) : Option String :=
  blockFieldDirectAux anchor.data label.data text.data

/-- Python `re.search(anchor + "\s*\n.*?\n\s*" + label + "\s*([^\n]+)",
text, re.DOTALL)`: after the newline ending the anchor's whitespace the
earliest line-start occurrence of the label is taken. -/
def blockFieldSkipAux (anchor label : List Char) : List Char → Option String
  | [] => none
  | c :: t =>
    if leadsWith anchor (c :: t) then
      let rest := (c :: t).drop anchor.length
      let w := rest.takeWhile pyIsSpace
      if w.contains '\n' then
        let nl0 := (w.takeWhile (· ≠ '\n')).length
        match nlWsLabelScan label (rest.drop (nl0 + 1)) with
        | some v => some v
        | none => blockFieldSkipAux anchor label t
      else blockFieldSkipAux anchor label t
    else blockFieldSkipAux anchor label t

def blockFieldSkip (text anchor label : String) : Option String :=
  blockFieldSkipAux anchor.data label.data text.data

/-- The `\n\s*` + question literal + `.*?\n.*?(alts)` step of the Part 2
training-status patterns. -/
def nlWsLabelAltsScan (label : List Char) (alts : List String) : List Char → Option String
  | [] => none
  | c :: t =>
    if c = '\n' then
      let w := t.takeWhile pyIsSpace
      let rest2 := t.drop w.length
      if leadsWith label rest2 then
        let after := rest2.drop label.length
        match findFrom after ['\n'] 0 with
        | some n =>
          match scanAlts alts (after.drop (n + 1)) with
          | some a => some a
          | none => nlWsLabelAltsScan label alts t
        | none => nlWsLabelAltsScan label alts t
      else nlWsLabelAltsScan label alts t
    else nlWsLabelAltsScan label alts t

/-- Python `re.search(anchor + "\s*\n.*?\n\s*Have you completed the CITI
basic course.*?\n.*?(Yes ☑|No ☑|Yes ☐|No ☐)", text, re.DOTALL)`. -/
def blockCitiStatusAux (anchor label : List Char) (alts : List String) :
    List Char → Option String
  | [] => none
  | c :: t =>
    if leadsWith anchor (c :: t) then
      let rest := (c :: t).drop anchor.length
      let w := rest.takeWhile pyIsSpace
      if w.contains '\n' then
        let nl0 := (w.takeWhile (· ≠ '\n')).length
        match nlWsLabelAltsScan label alts (rest.drop (nl0 + 1)) with
        | some v => some v
        | none => blockCitiStatusAux anchor label alts t
      else blockCitiStatusAux anchor label alts t
    else blockCitiStatusAux anchor label alts t

def blockCitiStatus (text anchor : String) : Option String :=
  blockCitiStatusAux anchor.data "Have you completed the CITI basic course".data ynAlts text.data

/-- How a Part 2 field is anchored: directly after the role header or after
a lazy skip. -/
inductive BlockField where
  | direct (label : String)
  | skip (label : String)

/-- The three training-date messages, differing between the PI and RA
loops. -/
structure P2DateMsgs where
  older : String
  valid : String
  badFormat : String

/-- One iteration of the Part 2 PI / RA field loops. -/
def p2FieldStep (text anchor : String) (now : Int) (emailField dateField : String)
    (dm : P2DateMsgs) (r : FindingSet) (f : String × BlockField) : FindingSet :=
  let mv :=
    match f.2 with
    | .direct label => blockFieldDirect text anchor label
    | .skip label => blockFieldSkip text anchor label
  match mv with
  | none => r.addErr ("Field '" ++ f.1 ++ "' is missing or empty.")
  | some v =>
    if pyStrip v = "" then r.addErr ("Field '" ++ f.1 ++ "' is missing or empty.")
    else
      let value := pyStrip v
      let r2 := r.addInfo ("Field '" ++ f.1 ++ "' filled: " ++ value)
      let r3 :=
        if f.1 = emailField && !validate_email value then
          r2.addErr ("Invalid email format for '" ++ f.1 ++ "': " ++ value)
        else r2
      if f.1 = dateField then
        match parseMDY value with
        | some d => if citiDateTooOld now d then r3.addErr dm.older else r3.addInfo dm.valid
        | none => r3.addErr dm.badFormat
      else r3

def p2PiFields : List (String × BlockField) :=
  [ ("PI Name:", .direct "Name:"),
    ("PI NU ID:", .skip "NU ID:"),
    ("PI NU School:", .skip "NU School:"),
    ("PI Department:", .skip "Department:"),
    ("PI Position:", .skip "Position:"),
    ("PI E-mail address:", .skip "E-mail address:"),
    ("PI Daytime Phone:", .skip "Daytime Phone:"),
    ("PI Mobile phone:", .skip "Mobile phone:"),
    ("PI CITI Training completion date:", .skip "CITI Training completion date:") ]

def p2RaFields : List (String × BlockField) :=
  [ ("RA Name:", .direct "Name:"),
    ("RA NU ID:", .skip "NU ID:"),
    ("RA NU School:", .skip "NU School:"),
    ("RA Department:", .skip "Department:"),
    ("RA Position:", .skip "Position:"),
    ("RA E-mail address:", .skip "E-mail address:"),
    ("RA CITI or alternative training completion date:", .skip "CITI or alternative training completion date:") ]

/-- Training-status findings shared by the PI and RA blocks. -/
def p2StatusStep (text anchor notFound isNo unmarked isYes : String) (r : FindingSet) :
    FindingSet :=
  match blockCitiStatus text anchor with
  | none => r.addErr notFound
  | some a =>
    if a = "No ☑" then r.addErr isNo
    else if a = "Yes ☐" ∨ a = "No ☐" then r.addWarn unmarked
    else r.addInfo isYes

/-- One parsed Additional Investigator block: the eight capture groups of
the `finditer` pattern. -/
structure AIMatch where
  name : String
  nuId : String
  school : String
  dept : String
  position : String
  email : String
  status : String
  date : String

def aiAnchor : String := "Additional Investigator(s):"

/-- Value step `\s*([^\n]*)\n` of one labelled line of the Additional
Investigator pattern.  Modelled semantics: the whitespace run after the
label stops at the line's newline, the capture is the rest of that line
(so an empty value directly followed by the next label on the next line
is accepted, as the Python backtracking accepts it); a value standing
only on a later line is not modelled. -/
def aiValueLine (after : List Char) : Option (String × List Char) :=
  let wlen := (after.takeWhile pyIsSpace).length
  match findFrom after ['\n'] 0 with
  | none => none
  | some fnl => some (String.mk ((after.take fnl).drop (min wlen fnl)), after.drop (fnl + 1))

/-- One `\s*Label:\s*([^\n]*)\n` line of the Additional Investigator
pattern. -/
def aiLabeledField (label : List Char) (rest : List Char) : Option (String × List Char) :=
  let rest2 := rest.drop (rest.takeWhile pyIsSpace).length
  if leadsWith label rest2 then aiValueLine (rest2.drop label.length) else none

/-- Tail `\n\s*.*?\n\s*CITI or alternative training completion
date:\s*([^\n]*)` after the status alternative. -/
def aiDatePart (dateLabel : List Char) : List Char → Option (String × List Char)
  | [] => none
  | c :: t =>
    if c = '\n' then
      let w := t.takeWhile pyIsSpace
      let rest2 := t.drop w.length
      if leadsWith dateLabel rest2 then
        let after := rest2.drop dateLabel.length
        let after2 := after.drop (after.takeWhile pyIsSpace).length
        let v := after2.takeWhile (· ≠ '\n')
        some (String.mk v, after2.drop v.length)
      else aiDatePart dateLabel t
    else aiDatePart dateLabel t

/-- The `.*?(Yes ☑|No ☑|Yes ☐|No ☐)\n` part before the date tail: the
earliest status alternative that a newline and a date line follow. -/
def aiStatusScan (dateLabel : List Char) : List Char → Option (String × String × List Char)
  | [] => none
  | c :: t =>
    match altAt (c :: t) ynAlts with
    | some a =>
      match (c :: t).drop a.data.length with
      | '\n' :: r2 =>
        match aiDatePart dateLabel r2 with
        | some (v, rem) => some (a, v, rem)
        | none => aiStatusScan dateLabel t
      | _ => aiStatusScan dateLabel t
    | none => aiStatusScan dateLabel t

/-- One match of the Additional Investigator pattern starting at the head
of `cs` (which begins with `aiAnchor`); yields the groups and the suffix
after the match. -/
def aiParseAt (cs : List Char) : Option (AIMatch × List Char) := do
  let rest0 := cs.drop aiAnchor.data.length
  let n ← findFrom rest0 ['\n'] 0
  let r1 := rest0.drop (n + 1)
  let (g1, r2) ← aiLabeledField "Name:".data r1
  let (g2, r3) ← aiLabeledField "NU ID:".data r2
  let (g3, r4) ← aiLabeledField "NU School:".data r3
  let (g4, r5) ← aiLabeledField "Department:".data r4
  let (g5, r6) ← aiLabeledField "Position:".data r5
  let (g6, r7) ← aiLabeledField "E-mail address:".data r6
  let r8 := r7.drop (r7.takeWhile pyIsSpace).length
  if leadsWith "Have you completed the CITI basic course".data r8 then
    let after := r8.drop "Have you completed the CITI basic course".data.length
    let n2 ← findFrom after ['\n'] 0
    let (g7, g8, rem) ← aiStatusScan "CITI or alternative training completion date:".data
      (after.drop (n2 + 1))
    some (⟨g1, g2, g3, g4, g5, g6, g7, g8⟩, rem)
  else none

/-- Python `re.finditer` over the Additional Investigator pattern:
non-overlapping matches scanning left to right (the fuel is the text
length; every match consumes at least one character). -/
def aiFindAllAux : Nat → List Char → List AIMatch
  | 0, _ => []
  | _ + 1, [] => []
  | fuel + 1, c :: t =>
    if leadsWith aiAnchor.data (c :: t) then
      match aiParseAt (c :: t) with
      | some (m, rem) => m :: aiFindAllAux fuel rem
      | none => aiFindAllAux fuel t
    else aiFindAllAux fuel t

def aiFindAll (text : String) : List AIMatch :=
  aiFindAllAux text.data.length text.data

/-- The seven validated fields of one Additional Investigator block, in
source order (the date is group 8; group 7 is the status checkbox). -/
def aiFields (m : AIMatch) : List (String × String) :=
  [ ("AI Name", pyStrip m.name),
    ("AI NU ID", pyStrip m.nuId),
    ("AI NU School", pyStrip m.school),
    ("AI Department", pyStrip m.dept),
    ("AI Position", pyStrip m.position),
    ("AI E-mail address", pyStrip m.email),
    ("AI CITI or alternative training completion date", pyStrip m.date) ]

/-- One field of the Additional Investigator loop; `i` is the 1-based
investigator count. -/
def aiFieldStep (now : Int) (i : Nat) (r : FindingSet) (f : String × String) : FindingSet :=
  let pre := "Additional Investigator " ++ toString i ++ ": "
  if f.2 = "" then r.addErr (pre ++ "Field '" ++ f.1 ++ "' is missing or empty.")
  else
    let r2 := r.addInfo (pre ++ "Field '" ++ f.1 ++ "' filled: " ++ f.2)
    let r3 :=
      if f.1 = "AI E-mail address:" && !validate_email f.2 then
        r2.addErr (pre ++ "Invalid email format for '" ++ f.1 ++ "': " ++ f.2)
      else r2
    if f.1 = "AI CITI or alternative training completion date" then
      match parseMDY f.2 with
      | some d =>
        if citiDateTooOld now d then r3.addErr (pre ++ "CITI training date is older than 3 years.")
        else r3.addInfo (pre ++ "CITI training date is valid.")
      | none => r3.addErr (pre ++ "CITI training date is not in valid format (MM/DD/YYYY).")
    else r3

/-- One Additional Investigator of the loop; fields and the status checkbox
are validated only when the name is non-empty. -/
def aiStep (now : Int) (r : FindingSet) (i : Nat) (m : AIMatch) : FindingSet :=
  let pre := "Additional Investigator " ++ toString i ++ ": "
  if pyStrip m.name ≠ "" then
    let r2 := (aiFields m).foldl (aiFieldStep now i) r
    if m.status = "No ☑" then r2.addErr (pre ++ "CITI training status is 'No'.")
    else if m.status = "Yes ☐" ∨ m.status = "No ☐" then
      r2.addWarn (pre ++ "CITI training status checkbox is not marked (☐).")
    else r2.addInfo (pre ++ "CITI training status is 'Yes'.")
  else r

def aiLoop (now : Int) (r : FindingSet) (ms : List AIMatch) : FindingSet :=
  ms.enum.foldl (fun acc p => aiStep now acc (p.1 + 1) p.2) r

/-- A checkbox glyph directly after `\s*` and a literal (the student
category shape). -/
def glyphAfterLit (lit : List Char) (rest : List Char) : Option (Char × List Char) :=
  let rest2 := rest.drop (rest.takeWhile pyIsSpace).length
  if leadsWith lit rest2 then
    match rest2.drop lit.length with
    | g :: r3 => if g == '☑' || g == '☐' then some (g, r3) else none
    | [] => none
  else none

/-- Python `re.search("For students:\s*\n\s*Undergraduate (☑|☐)\s*Masters
(☑|☐)\s*PhD (☑|☐)\s*Other (☑|☐)\s*\n\s*Course:\s*([^\n]*)", text,
re.DOTALL)`. -/
def p2StudentScanAux : List Char → Option (Char × Char × Char × Char × String)
  | [] => none
  | c :: t =>
    if leadsWith "For students:".data (c :: t) then
      let rest := (c :: t).drop "For students:".data.length
      let w := rest.takeWhile pyIsSpace
      let attempt : Option (Char × Char × Char × Char × String) :=
        if w.contains '\n' then do
          let (g1, r1) ← glyphAfterLit "Undergraduate ".data rest
          let (g2, r2) ← glyphAfterLit "Masters ".data r1
          let (g3, r3) ← glyphAfterLit "PhD ".data r2
          let (g4, r4) ← glyphAfterLit "Other ".data r3
          let w2 := r4.takeWhile pyIsSpace
          let r5 := r4.drop w2.length
          if w2.contains '\n' && leadsWith "Course:".data r5 then
            some (g1, g2, g3, g4, fieldTailStar (r5.drop "Course:".data.length))
          else none
        else none
      match attempt with
      | some v => some v
      | none => p2StudentScanAux t
    else p2StudentScanAux t

def p2StudentScan (text : String) : Option (Char × Char × Char × Char × String) :=
  p2StudentScanAux text.data

/-- The student-section findings of Part 2. -/
def p2StudentStep (text : String) (r : FindingSet) : FindingSet :=
  match p2StudentScan text with
  | none => r.addErr "For students section not found or improperly formatted."
  | some (u, ma, ph, ot, course) =>
    let selected := (([("Undergraduate", u), ("Masters", ma), ("PhD", ph),
      ("Other", ot)].filter (fun p => p.2 == '☑')).map (fun p => p.1))
    let r2 :=
      match selected with
      | [cat] => r.addInfo ("Student category selected: " ++ cat ++ ".")
      | _ => r.addErr ("Exactly one student category must be selected. Found " ++
          toString selected.length ++ ".")
    if pyStrip course = "" then
      r2.addErr "Course field in For students section is missing or empty."
    else r2.addInfo ("Course field filled: " ++ pyStrip course ++ ".")

def p2PiDateMsgs : P2DateMsgs :=
  ⟨"PI CITI Training date is older than 3 years.", "PI CITI Training date is valid.",
    "PI CITI Training date is not in valid format (MM/DD/YYYY)."⟩

def p2RaDateMsgs : P2DateMsgs :=
  ⟨"RA CITI training date is older than 3 years.", "RA CITI training date is valid.",
    "RA CITI training date is not in valid format (MM/DD/YYYY)."⟩

/-- Body of `validate_part_2` on the section text. -/
def part2OfText (text : String) (now : Int) : FindingSet × String :=
  let (r0, pi_surname) :=
    match blockFieldDirect text "Principal Investigator" "Name:" with
    | some v =>
      if pyStrip v ≠ "" then
        let pi_name := pyStrip v
        let surname :=
          match (pySplit pi_name).getLast? with
          | some s => s
          | none => ""
        (FindingSet.addInfo {} ("PI Name: " ++ pi_name ++ ", Surname extracted: " ++ surname),
          surname)
      else ({}, "")
    | none => ({}, "")
  let r1 := p2PiFields.foldl
    (p2FieldStep text "Principal Investigator" now "PI E-mail address:"
      "PI CITI Training completion date:" p2PiDateMsgs) r0
  let r2 := p2StatusStep text "Principal Investigator" "PI CITI training status not found."
    "PI CITI training status is 'No'." "PI CITI training status checkbox is not marked (☐)."
    "PI CITI training status is 'Yes'." r1
  let r3 := p2RaFields.foldl
    (p2FieldStep text "Research Advisor:" now "RA E-mail address:"
      "RA CITI or alternative training completion date:" p2RaDateMsgs) r2
  let r4 := p2StatusStep text "Research Advisor:" "RA CITI training status not found."
    "RA CITI training status is 'No'." "RA CITI training status checkbox is not marked (☐)."
    "RA CITI training status is 'Yes'." r3
  let ms := aiFindAll text
  let r5 := aiLoop now r4 ms
  let r6 := if ms.length = 0 then r5.addInfo "No Additional Investigators specified." else r5
  (p2StudentStep text r6, pi_surname)

/-- Embeds `validate_part_2`; `now` is the instant `datetime.now()` yields
during the run. -/
def validate_part_2 (ps : List String) (now : Int) : FindingSet × String :=
  let text := sliceSection ps "Part 2: Research Team Details" "Part 3: Research Design"
  if text = "" then ({ errors := ["Part 2: Research Team Details section not found."] }, "")
  else part2OfText text now

/-- Python `any(term in s for term in terms)`. -/
def anyIn (terms : List String) (s : String) : Bool :=
  terms.any (fun t => pyIn t s)

/-- The two forms `validate_part_3` seeds unconditionally (the orchestrator
seeds the same list, discarded when Part 3 returns its own). -/
def p3SeedForms : List RequiredForm :=
  [ ⟨"Appendix A: IREC Application Form", "Required for all submissions."⟩,
    ⟨"CITI Training Certificates", "Required for all team members."⟩ ]

/-- One narrative field of Part 3: display name, anchor, stop literal and
optional word-count bounds. -/
structure P3Field where
  name : String
  anchor : String
  stopAt : String
  minW : Option Nat
  maxW : Option Nat

def p3Fields : List P3Field :=
  [ ⟨"Purpose of the research", "What is the purpose of the research?",
      "What question(s) do you hope to answer?", some 250, some 300⟩,
    ⟨"Research question(s)", "What question(s) do you hope to answer?",
      "Describe the data collection methodology", none, none⟩,
    ⟨"Data collection methodology", "Describe the data collection methodology",
      "Briefly describe the data analysis processes", some 250, some 300⟩,
    ⟨"Data analysis processes", "Briefly describe the data analysis processes",
      "Briefly describe the research sites", some 150, some 300⟩,
    ⟨"Research sites", "Briefly describe the research sites", "Part 4:", none, none⟩ ]

/-- One iteration of the Part 3 field loop, threading the findings and the
captured methodology text. -/
def p3FieldStep (text : String) (st : FindingSet × String) (f : P3Field) : FindingSet × String :=
  match captureAnchorNl text f.anchor f.stopAt with
  | none => (st.1.addErr ("Field '" ++ f.name ++ "' is missing or empty."), st.2)
  | some v =>
    if pyStrip v = "" then (st.1.addErr ("Field '" ++ f.name ++ "' is missing or empty."), st.2)
    else
      let value := pyStrip v
      let r2 := st.1.addInfo ("Field '" ++ f.name ++ "' filled.")
      let meth2 := if f.name = "Data collection methodology" then value else st.2
      match f.minW, f.maxW with
      | some mn, some mx =>
        let wc := count_words value
        if wc < mn ∨ wc > mx then
          (r2.addWarn ("Field '" ++ f.name ++ "' has " ++ toString wc ++ " words, expected " ++
            toString mn ++ "–" ++ toString mx ++ "."), meth2)
        else
          (r2.addInfo ("Field '" ++ f.name ++ "' word count is valid: " ++ toString wc ++ "."),
            meth2)
      | _, _ => (r2, meth2)

def p3FieldsLoop (text : String) : FindingSet × String :=
  p3Fields.foldl (p3FieldStep text) ({}, "")

/-- The lower-cased research-sites text Part 3 re-extracts for the language
and external-site rules (empty when the field is absent or blank). -/
def p3SitesText (text : String) : String :=
  match captureAnchorNl text "Briefly describe the research sites" "Part 4:" with
  | some v => if pyStrip v ≠ "" then pyLower v else ""
  | none => ""

/-- The consent-form language list derived from the research-sites text. -/
def p3Languages (sites : String) : List String :=
  if pyIn "kazakhstan" sites then ["English", "Russian", "Kazakh"]
  else if sites ≠ "" && !(pyIn "nazarbayev university" sites) then
    ["English", "Official language(s) of the country"]
  else ["English"]

def p3QualiTerms : List String := ["interview", "focus group", "observation", "action research"]

def p3QuantTerms : List String := ["survey", "clinical trial", "existing data set", "human genetics"]

/-- The four qualitative-method forms (the first two cite the language
list, the last two carry fixed reasons). -/
def p3FormsQuali (langs : String) : List RequiredForm :=
  [ ⟨"Appendix B: Written Informed Consent Form",
      "Required for qualitative research in " ++ langs ++ "."⟩,
    ⟨"Appendix D: Oral Consent Script",
      "Required if oral consent is used in " ++ langs ++ "."⟩,
    ⟨"Interview Questions/Focus Group Guides", "Required for qualitative methods."⟩,
    ⟨"Recruitment Materials (e.g., emails, flyers)", "Required for participant notification."⟩ ]

/-- The keyword-triggered form cascade of `validate_part_3` (everything the
validator appends after its two seed forms), in source append order. -/
def p3FormsCascade (methodology sites : String) : List RequiredForm :=
  let langs := String.intercalate ", " (p3Languages sites)
  (if anyIn p3QualiTerms methodology then p3FormsQuali langs else []) ++
  (if anyIn p3QuantTerms methodology then
    (if pyIn "internet survey" methodology || pyIn "online survey" methodology then
      [⟨"Appendix C: Informed Consent Form for Internet Surveys",
        "Required for internet surveys in " ++ langs ++ "."⟩]
    else
      [⟨"Appendix B: Written Informed Consent Form",
        "Required for quantitative research in " ++ langs ++ "."⟩]) ++
    [⟨"Surveys/Questionnaires", "Required for quantitative methods."⟩]
  else []) ++
  (if pyIn "mixed method" methodology then
    [⟨"Appendix B: Written Informed Consent Form",
      "Required for mixed methods in " ++ langs ++ "."⟩,
     ⟨"Recruitment Materials (e.g., emails, flyers)", "Required for participant notification."⟩] ++
    (if pyIn "interview" methodology || pyIn "focus group" methodology then
      [⟨"Appendix D: Oral Consent Script", "Required if oral consent is used in " ++ langs ++ "."⟩,
       ⟨"Interview Questions/Focus Group Guides", "Required for qualitative components."⟩]
    else []) ++
    (if pyIn "survey" methodology then
      [⟨"Surveys/Questionnaires", "Required for quantitative components."⟩]
    else [])
  else []) ++
  (if pyIn "genetic" methodology || pyIn "biobank" methodology then
    [⟨"Appendix M: Written Informed Consent Form For Genetic and/or Biobank Research",
      "Required for genetic/biobank research in " ++ langs ++ "."⟩]
  else []) ++
  (if pyIn "collaborator" methodology || pyIn "external organization" methodology then
    [⟨"Appendix L: Confidentiality Agreement Form",
      "Required for external collaborators in " ++ langs ++ "."⟩]
  else []) ++
  (if sites ≠ "" && !(pyIn "nazarbayev university" sites) then
    [⟨"Letters of Support/Approval from Outside Organizations", "Required for external sites."⟩]
  else []) ++
  (if pyIn "visual stimuli" methodology then
    [⟨"Visual Stimuli", "Required if visual stimuli are presented."⟩]
  else [])

/-- Body of `validate_part_3` on the section text. -/
def part3OfText (text : String) : FindingSet × List RequiredForm × String :=
  let r1 := (p3FieldsLoop text).1
  let methodology_text := (p3FieldsLoop text).2
  let methodology := pyLower methodology_text
  let research_sites_text := p3SitesText text
  let required_forms := p3SeedForms ++ p3FormsCascade methodology research_sites_text
  let r2 :=
    if pyIn "attach" (pyLower text) || pyIn "appendix" (pyLower text) then
      r1.addInfo "References to attachments detected in Part 3."
    else r1.addWarn "No references to attachments detected in Part 3."
  (r2, required_forms, methodology_text)

/-- Embeds `validate_part_3` (it ignores any incoming forms list and builds
its own, seeded with the two unconditional forms). -/
def validate_part_3 (ps : List String) : FindingSet × List RequiredForm × String :=
  let text := sliceSection ps "Part 3: Research Design" "Part 4: Participants"
  if text = "" then
    ({ errors := ["Part 3: Research Design section not found."] }, p3SeedForms, "")
  else part3OfText text

/-- The ten special-population questions of Part 4 as (name, anchor); the
patterns carry `re.DOTALL`. -/
def p4Pops : List (String × String) :=
  [ ("Minors", "Minors (under 18 years of age)?"),
    ("Legally incompetent", "Legally incompetent?"),
    ("Prisoners", "Prisoners?"),
    ("Perinatal women", "Perinatal women"),
    ("Institutionalized", "Institutionalized?"),
    ("Mentally incapacitated", "Mentally incapacitated?"),
    ("Sexual behaviors", "Sexual behaviors?"),
    ("Drug use", "Drug use?"),
    ("Illegal conduct", "Illegal conduct?"),
    ("Use of alcohol", "Use of alcohol?") ]

def p4SensitivePops : List String :=
  ["Sexual behaviors", "Drug use", "Illegal conduct", "Use of alcohol"]

/-- One iteration of the special-population loop, threading the findings,
the yes-list and the forms appended so far. -/
def p4PopStep (text : String) (st : FindingSet × List String × List RequiredForm)
    (p : String × String) : FindingSet × List String × List RequiredForm :=
  match searchDotallAlts text p.2 ynAlts with
  | none =>
    ({ st.1 with errors := st.1.errors ++
        ["Response to '" ++ p.1 ++ "' not found or improperly formatted."] }, st.2)
  | some ans =>
    if hasBox ans then
      (st.1.addWarn ("Checkbox for '" ++ p.1 ++ "' is not marked (☐)."), st.2)
    else if ans = "Yes ☑" then
      let r2 := st.1.addInfo ("Special population '" ++ p.1 ++ "' selected: Yes.")
      let delta :=
        if p.1 = "Minors" then
          [ ⟨"Appendix E: Assent Form", "Required for minors in English, Russian, Kazakh."⟩,
            ⟨"Parental Consent Forms", "Required for minors in English, Russian, Kazakh."⟩ ]
        else
          [⟨"Appendix B: Written Informed Consent Form",
            "Required for special population '" ++ p.1 ++ "' in English, Russian, Kazakh."⟩] ++
          (if p4SensitivePops.contains p.1 then
            [⟨"Appendix L: Confidentiality Agreement Form",
              "Recommended for sensitive subjects ('" ++ p.1 ++ "')."⟩]
          else [])
      (r2, st.2.1 ++ [p.1], st.2.2 ++ delta)
    else
      (st.1.addInfo ("Special population '" ++ p.1 ++ "' selected: No."), st.2)

def p4PopsLoop (text : String) : FindingSet × List String × List RequiredForm :=
  p4Pops.foldl (p4PopStep text) ({}, [], [])

/-- Findings plus appended forms of the "Other (please specify)" line. -/
def p4OtherStep (text : String) (r : FindingSet) : FindingSet × List RequiredForm :=
  match fieldLineStar text "Other (please specify)" with
  | some v =>
    if pyStrip v ≠ "" then
      (r.addInfo ("Other special population: " ++ pyStrip v ++ "."),
        [⟨"Appendix B: Written Informed Consent Form", "Required for other special populations."⟩])
    else (r, [])
  | none => (r, [])

def p4SampleStep (text : String) (r : FindingSet) : FindingSet :=
  match fieldDigits text "Expected number of participants or sample size:" with
  | none => r.addErr "Sample size is missing or invalid."
  | some d => r.addInfo ("Sample size: " ++ d ++ ".")

/-- The five demographic fields of Part 4; the second and third use the
`.*?:` colon form of the label. -/
inductive P4FieldKind where
  | plain (label : String)
  | colon (anchor : String)

def p4Fields : List (String × P4FieldKind) :=
  [ ("Languages of communication", .plain "Languages of communication:"),
    ("Gender, race or ethnic group", .colon "Gender, race or ethnic group"),
    ("Affiliation of participants", .colon "Affiliation of participants"),
    ("Mental health", .plain "Participants’ general state of mental health:"),
    ("Physical health", .plain "Participants’ general state of physical health:") ]

def p4FieldStep (text : String) (r : FindingSet) (f : String × P4FieldKind) : FindingSet :=
  let mv :=
    match f.2 with
    | .plain label => fieldLine text label
    | .colon anchor => fieldColon text anchor
  match mv with
  | none => r.addErr ("Field '" ++ f.1 ++ "' is missing or empty.")
  | some v =>
    if pyStrip v = "" then r.addErr ("Field '" ++ f.1 ++ "' is missing or empty.")
    else r.addInfo ("Field '" ++ f.1 ++ "' filled: " ++ pyStrip v ++ ".")

/-- The justification block of Part 4. -/
def p4JustStep (text : String) (yesPops : List String) (r : FindingSet) : FindingSet :=
  let na := searchAnchorNlAlts text "Explain why you have chosen this particular group" naAlts
  let jt := captureAnchorNl text "Explain why you have chosen this particular group"
    "What is your relationship to the participants?"
  if na = some "N/A ☑" then
    if yesPops ≠ [] then r.addErr "Justification cannot be N/A when special populations are selected."
    else r.addInfo "Justification marked as N/A."
  else
    match jt with
    | some v =>
      if pyStrip v ≠ "" then r.addInfo "Justification provided."
      else r.addErr "Justification is missing or empty."
    | none => r.addErr "Justification is missing or empty."

/-- The relationship / power-dynamics narratives of Part 4. -/
def p4RelStep (text : String) (r : FindingSet) : FindingSet :=
  let rel := captureAnchorNl text "What is your relationship to the participants?"
    "Does your relationship potentially create any power"
  let pow := captureAnchorNl text "Does your relationship potentially create any power" "\n"
  let r2 :=
    match rel with
    | some v =>
      if pyStrip v = "" then r.addErr "Relationship to participants is missing or empty."
      else r.addInfo ("Relationship: " ++ pyStrip v ++ ".")
    | none => r.addErr "Relationship to participants is missing or empty."
  match pow with
  | some v =>
    if pyStrip v = "" then r2.addErr "Power dynamics description is missing or empty."
    else r2.addInfo ("Power dynamics: " ++ pyStrip v ++ ".")
  | none => r2.addErr "Power dynamics description is missing or empty."

/-- The recruitment conditional block of Part 4: findings plus the forms it
appends. -/
def p4RecruitStep (text : String) (r : FindingSet) : FindingSet × List RequiredForm :=
  let recruitment := searchLineAlts text "Will participants be recruited?" ynAlts
  let cna := searchAnchorNlAlts text "How will you contact potential participants" naAlts
  let ct := captureAnchorNl text "How will you contact potential participants"
    "Describe the method for recruiting participants"
  let rna := searchAnchorNlAlts text "Describe the method for recruiting participants" naAlts
  let rt := captureAnchorNl text "Describe the method for recruiting participants" "Exclusions:"
  match recruitment with
  | none => (r.addErr "Recruitment question not found or improperly formatted.", [])
  | some ans =>
    if hasBox ans then (r.addWarn "Recruitment checkbox is not marked (☐).", [])
    else if ans = "Yes ☑" then
      let r2 := r.addInfo "Participants will be recruited: Yes."
      let r3 :=
        if cna = some "N/A ☑" then r2.addErr "Contact method cannot be N/A when recruitment is Yes."
        else
          match ct with
          | some v =>
            if pyStrip v = "" then r2.addErr "Contact method description is missing or empty."
            else r2.addInfo "Contact method description provided."
          | none => r2.addErr "Contact method description is missing or empty."
      let r4 :=
        if rna = some "N/A ☑" then
          r3.addErr "Recruitment method cannot be N/A when recruitment is Yes."
        else
          match rt with
          | some v =>
            if pyStrip v = "" then r3.addErr "Recruitment method description is missing or empty."
            else r3.addInfo "Recruitment method description provided."
          | none => r3.addErr "Recruitment method description is missing or empty."
      (r4, [⟨"Recruitment Materials (e.g., emails, flyers)", "Required for recruitment."⟩])
    else
      let r2 := r.addInfo "Participants will be recruited: No."
      let contactBad :=
        (match cna with | some a => a ≠ "N/A ☑" | none => false) ||
        (match ct with | some v => pyStrip v ≠ "" | none => false)
      let r3 := if contactBad then r2.addErr "Contact method should be N/A when recruitment is No."
        else r2
      let recruitBad :=
        (match rna with | some a => a ≠ "N/A ☑" | none => false) ||
        (match rt with | some v => pyStrip v ≠ "" | none => false)
      let r4 := if recruitBad then
          r3.addErr "Recruitment method should be N/A when recruitment is No."
        else r3
      (r4, [])

/-- The exclusions and withdrawal narratives of Part 4. -/
def p4TailStep (text : String) (r : FindingSet) : FindingSet :=
  let ena := searchAnchorNlAlts text "Exclusions:" naAlts
  let et := captureAnchorNl text "Exclusions:" "Procedures in the event of a participant withdrawing"
  let r2 :=
    if ena = some "N/A ☑" then r.addInfo "Exclusions marked as N/A."
    else
      match et with
      | some v =>
        if pyStrip v ≠ "" then r.addInfo "Exclusions description provided."
        else r.addErr "Exclusions description is missing or empty."
      | none => r.addErr "Exclusions description is missing or empty."
  match captureAnchorNl text "Procedures in the event of a participant withdrawing" "Part 5:" with
  | some v =>
    if pyStrip v = "" then r2.addErr "Withdrawal procedures description is missing or empty."
    else r2.addInfo "Withdrawal procedures description provided."
  | none => r2.addErr "Withdrawal procedures description is missing or empty."

/-- Body of `validate_part_4` on the section text: the findings and the
forms appended by this section (in source append order). -/
def part4OfText (text : String) : FindingSet × List RequiredForm :=
  let (r1, yesPops, popForms) := p4PopsLoop text
  let (r2, otherForms) := p4OtherStep text r1
  let r3 := p4SampleStep text r2
  let r4 := p4Fields.foldl (p4FieldStep text) r3
  let r5 := p4JustStep text yesPops r4
  let r6 := p4RelStep text r5
  let (r7, recForms) := p4RecruitStep text r6
  (p4TailStep text r7, popForms ++ otherForms ++ recForms)

/-- Embeds `validate_part_4`: the incoming forms list is only appended
to. -/
def validate_part_4 (ps : List String) (forms : List RequiredForm) :
    FindingSet × List RequiredForm :=
  let text := sliceSection ps "Part 4: Participants" "Part 5: Detailed Procedures"
  if text = "" then ({ errors := ["Part 4: Participants section not found."] }, forms)
  else ((part4OfText text).1, forms ++ (part4OfText text).2)

/-- Exactly two digits, a slash and exactly four digits (`\d{2}/\d{4}`),
returning the matched text and the rest. -/
def p5DateDigits (rest : List Char) : Option (String × List Char) :=
  match rest with
  | a :: b :: '/' :: c :: d :: e :: f :: r =>
    if a.isDigit && b.isDigit && c.isDigit && d.isDigit && e.isDigit && f.isDigit then
      some (String.mk [a, b, '/', c, d, e, f], r)
    else none
  | _ => none

/-- The `\s*(\d{2}/\d{4})\s*to\s*(\d{2}/\d{4})` tail of the Part 5 date
pattern. -/
def p5ParseDatePair (rest : List Char) : Option (String × String) := do
  let rest1 := rest.drop (rest.takeWhile pyIsSpace).length
  let (d1, r1) ← p5DateDigits rest1
  let r2 := r1.drop (r1.takeWhile pyIsSpace).length
  if leadsWith "to".data r2 then
    let r3 := r2.drop 2
    let r4 := r3.drop (r3.takeWhile pyIsSpace).length
    let (d2, _) ← p5DateDigits r4
    some (d1, d2)
  else none

/-- Python `re.search(anchor + ".*?\n\s*(\d{2}/\d{4})\s*to\s*(\d{2}/\d{4})",
text)` without `re.DOTALL`: the date pair follows the newline ending the
anchor's line. -/
def p5DatesScanAux (anchor : List Char) : List Char → Option (String × String)
  | [] => none
  | c :: t =>
    if leadsWith anchor (c :: t) then
      let rest := (c :: t).drop anchor.length
      let line := rest.takeWhile (· ≠ '\n')
      match p5ParseDatePair (rest.drop (line.length + 1)) with
      | some p => some p
      | none => p5DatesScanAux anchor t
    else p5DatesScanAux anchor t

def p5DatesScan (text : String) : Option (String × String) :=
  p5DatesScanAux "When is the data collection for the research intended to begin and end?".data
    text.data

/-- The Part 5 date-pair findings: format of both dates and the 12-month
span bound (months counted as `(Δyear) * 12 + Δmonth`). -/
def p5DatesStep (text : String) (r : FindingSet) : FindingSet :=
  match p5DatesScan text with
  | none => r.addErr "Data collection dates are missing or improperly formatted."
  | some (s1, s2) =>
    match parseMY s1, parseMY s2 with
    | some sd, some ed =>
      let r2 := r.addInfo ("Data collection dates: " ++ s1 ++ " to " ++ s2 ++ ".")
      let delta : Int := ((ed.2 : Int) - (sd.2 : Int)) * 12 + (ed.1 : Int) - (sd.1 : Int)
      if delta > 12 then r2.addErr "Data collection period exceeds one year." else r2
    | _, _ => r.addErr "Data collection dates must be in MM/YYYY format."

/-- Body of `validate_part_5` on the section text: the findings, the forms
appended by this section and the involvement text carried forward. -/
def part5OfText (text : String) : FindingSet × List RequiredForm × String :=
  let r1 := p5DatesStep text {}
  let (r2, invForms, involvement_text) :=
    match captureAnchorNl text "Describe how subjects will be involved in detail"
      "Will you be the one administering" with
    | some v =>
      if pyStrip v = "" then
        (r1.addErr "Participant involvement description is missing or empty.",
          ([] : List RequiredForm), "")
      else
        let it := pyStrip v
        let r2a := r1.addInfo "Participant involvement description provided."
        if pyIn "debriefing" (pyLower it) then
          (r2a, [⟨"Debriefing Documents", "Required if debriefing is part of the process."⟩], it)
        else (r2a, [], it)
    | none =>
      (r1.addErr "Participant involvement description is missing or empty.",
        ([] : List RequiredForm), "")
  let r3 :=
    match captureAnchorNl text "Will you be the one administering"
      "Will the participants experience any discomfort" with
    | some v =>
      if pyStrip v = "" then r2.addErr "Data collection administration description is missing or empty."
      else r2.addInfo "Data collection administration description provided."
    | none => r2.addErr "Data collection administration description is missing or empty."
  let discomfortNa := searchAnchorNlAlts text "If “Yes”, please explain" naAlts
  let discomfortExpl := captureAnchorNl text "If “Yes”, please explain"
    "Will deception or false or misleading"
  let (r4, discForms) :=
    match searchLineAlts text "Will the participants experience any discomfort?" ynAlts with
    | none => (r3.addErr "Discomfort question not found or improperly formatted.",
        ([] : List RequiredForm))
    | some ans =>
      if hasBox ans then (r3.addWarn "Discomfort checkbox is not marked (☐).", [])
      else if ans = "Yes ☑" then
        let r4a := r3.addInfo "Discomfort: Yes."
        let r4b :=
          if discomfortNa = some "N/A ☑" then
            r4a.addErr "Discomfort explanation cannot be N/A when discomfort is Yes."
          else
            match discomfortExpl with
            | some v =>
              if pyStrip v = "" then r4a.addErr "Discomfort explanation is missing or empty."
              else r4a.addInfo "Discomfort explanation provided."
            | none => r4a.addErr "Discomfort explanation is missing or empty."
        (r4b, [⟨"Appendix B: Written Informed Consent Form",
          "Required for discomfort, with precautions."⟩])
      else
        let r4a := r3.addInfo "Discomfort: No."
        match discomfortExpl with
        | some v =>
          if pyStrip v ≠ "" then
            (r4a.addWarn "Discomfort explanation provided when discomfort is No.", [])
          else (r4a, [])
        | none => (r4a, [])
  let deceptionNa := searchAnchorNlAlts text "If “Yes”, explain why deception is necessary" naAlts
  let deceptionExpl := captureAnchorNl text "If “Yes”, explain why deception is necessary" "Part 6:"
  let (r5, decForms) :=
    match searchAnchorNlAlts text "Will deception or false or misleading information be used" ynAlts with
    | none => (r4.addErr "Deception question not found or improperly formatted.",
        ([] : List RequiredForm))
    | some ans =>
      if hasBox ans then (r4.addWarn "Deception checkbox is not marked (☐).", [])
      else if ans = "Yes ☑" then
        let r5a := r4.addInfo "Deception: Yes."
        let r5b :=
          if deceptionNa = some "N/A ☑" then
            r5a.addErr "Deception explanation cannot be N/A when deception is Yes."
          else
            match deceptionExpl with
            | some v =>
              if pyStrip v = "" then r5a.addErr "Deception explanation is missing or empty."
              else r5a.addInfo "Deception explanation provided."
            | none => r5a.addErr "Deception explanation is missing or empty."
        (r5b, [⟨"Appendix B: Written Informed Consent Form", "Required for deception, with debriefing."⟩,
          ⟨"Debriefing Documents", "Required for deception."⟩])
      else
        let r5a := r4.addInfo "Deception: No."
        match deceptionExpl with
        | some v =>
          if pyStrip v ≠ "" then
            (r5a.addWarn "Deception explanation provided when deception is No.", [])
          else (r5a, [])
        | none => (r5a, [])
  (r5, invForms ++ discForms ++ decForms, involvement_text)

/-- Embeds `validate_part_5`. -/
def validate_part_5 (ps : List String) (forms : List RequiredForm) :
    FindingSet × List RequiredForm × String :=
  let text := sliceSection ps "Part 5: Detailed Procedures" "Part 6: Data Management Plan"
  if text = "" then
    ({ errors := ["Part 5: Detailed Procedures section not found."] }, forms, "")
  else ((part5OfText text).1, forms ++ (part5OfText text).2.1, (part5OfText text).2.2)

def p6DropdownAlts : List String :=
  ["Yes ☑", "No ☑", "No dropdown menu ☑", "Yes ☐", "No ☐", "No dropdown menu ☐"]

/-- The electronic-survey "Yes" branch of Part 6. -/
def p6YesBranch (text : String) (r : FindingSet) : FindingSet :=
  let np := searchLineAlts text "Will you assure that the participant will only see his/her name?" ynAlts
  let rr := searchLineAlts text "Will you have the “read receipt” function turned off?" ynAlts
  let expl := captureAnchorNl text "If you answered “No” to these questions, please explain"
    "If your survey contains questions"
  let r2 :=
    match np with
    | none => r.addErr "Name privacy question not found or improperly formatted."
    | some a => r.addInfo ("Name privacy: " ++ a ++ ".")
  let r3 :=
    match rr with
    | none => r2.addErr "Read receipt question not found or improperly formatted."
    | some a => r2.addInfo ("Read receipt: " ++ a ++ ".")
  let r4 :=
    if np = some "No ☑" ∨ rr = some "No ☑" then
      match expl with
      | some v =>
        if pyStrip v = "" then
          r3.addErr "Explanation for 'No' in email invitation questions is missing or empty."
        else r3.addInfo "Explanation for 'No' in email invitation provided."
      | none => r3.addErr "Explanation for 'No' in email invitation questions is missing or empty."
    else r3
  let r5 :=
    match searchLineAlts text "Do they have the option to choose “No response”" p6DropdownAlts with
    | none => r4.addErr "Dropdown menu question not found or improperly formatted."
    | some a => r4.addInfo ("Dropdown menu: " ++ a ++ ".")
  let r6 :=
    match captureAnchorNl text "How will data be transmitted?" "What is the URL?" with
    | some v =>
      if pyStrip v = "" then r5.addErr "Data transmission description is missing or empty."
      else r5.addInfo "Data transmission description provided."
    | none => r5.addErr "Data transmission description is missing or empty."
  match fieldNlStar text "What is the URL?" with
  | some v =>
    if pyStrip v = "" then r6.addErr "URL is missing or empty for electronic survey."
    else r6.addInfo ("Survey URL: " ++ pyStrip v ++ ".")
  | none => r6.addErr "URL is missing or empty for electronic survey."

/-- The electronic-survey "No" branch of Part 6: each sub-field present or
answered is its own error (all five patterns searched with `re.DOTALL`
here). -/
def p6NoBranch (text : String) (r : FindingSet) : FindingSet :=
  let unmarked : List String := ["Yes ☐", "No ☐", "No dropdown menu ☐"]
  let chk : Option String → Bool := fun m =>
    match m with
    | some a => !(unmarked.contains a)
    | none => false
  let txt : Option String → Bool := fun m =>
    match m with
    | some v => pyStrip v ≠ ""
    | none => false
  let r2 :=
    if chk (searchDotallAlts text "Will you assure that the participant will only see his/her name?" ynAlts) then
      r.addErr "Name privacy should be unanswered or empty when electronic survey is No."
    else r
  let r3 :=
    if chk (searchDotallAlts text "Will you have the “read receipt” function turned off?" ynAlts) then
      r2.addErr "Read receipt should be unanswered or empty when electronic survey is No."
    else r2
  let r4 :=
    if chk (searchDotallAlts text "Do they have the option to choose “No response”" p6DropdownAlts) then
      r3.addErr "Dropdown menu should be unanswered or empty when electronic survey is No."
    else r3
  let r5 :=
    if txt (captureAnchorNl text "How will data be transmitted?" "What is the URL?") then
      r4.addErr "Data transmission should be unanswered or empty when electronic survey is No."
    else r4
  if txt (fieldNlStar text "What is the URL?") then
    r5.addErr "URL should be unanswered or empty when electronic survey is No."
  else r5

/-- The storage / maintenance / sharing / security tail of Part 6, run on
both sides of the electronic-survey gate; yields the findings, the forms
it appends and the three carried texts. -/
def p6TailStep (text : String) (r : FindingSet) :
    FindingSet × List RequiredForm × String × String × String :=
  let (r1, storage_text) :=
    match fieldNlStar text "Where will data be stored?" with
    | some v =>
      if pyStrip v = "" then (r.addErr "Data storage description is missing or empty.", "")
      else (r.addInfo ("Data storage: " ++ pyStrip v ++ "."), pyStrip v)
    | none => (r.addErr "Data storage description is missing or empty.", "")
  let (r2, maintForms, maintenance_text) :=
    match captureAnchorNl text "How will data be maintained?" "Will data be shared?" with
    | some v =>
      if pyStrip v = "" then
        (r1.addErr "Data maintenance description is missing or empty.", ([] : List RequiredForm), "")
      else
        let mt := pyStrip v
        let r2a := r1.addInfo ("Data maintenance: " ++ mt ++ ".")
        if pyIn "identifiable" (pyLower mt) then
          (r2a, [⟨"Appendix L: Confidentiality Agreement Form", "Recommended for identifiable data."⟩], mt)
        else (r2a, [], mt)
    | none =>
      (r1.addErr "Data maintenance description is missing or empty.", ([] : List RequiredForm), "")
  let details := captureAnchorNl text "How? With whom? Will subjects be re-identifiable? Why or why not?"
    "Describe the data security plan"
  let (r3, shareForms, sharing_text) :=
    match searchLineAlts text "Will data be shared?" ynAlts with
    | none => (r2.addErr "Data sharing question not found or improperly formatted.",
        ([] : List RequiredForm), "")
    | some ans =>
      if hasBox ans then (r2.addWarn "Data sharing checkbox is not marked (☐).", [], "")
      else
        let r3a := r2.addInfo ("Data sharing: " ++ ans ++ ".")
        match details with
        | some v =>
          if pyStrip v = "" then
            (r3a.addErr "Data sharing details are missing or empty.", [], "")
          else
            let st := pyStrip v
            let r3b := r3a.addInfo ("Data sharing details: " ++ st ++ ".")
            if ans = "Yes ☑" && pyIn "identifiable" (pyLower st) then
              (r3b, [⟨"Appendix L: Confidentiality Agreement Form",
                "Required for sharing identifiable data."⟩], st)
            else (r3b, [], st)
        | none => (r3a.addErr "Data sharing details are missing or empty.", [], "")
  let r4 :=
    match captureAnchorNl text "Describe the data security plan" "Part 7:" with
    | some v =>
      if pyStrip v = "" then r3.addErr "Data security plan description is missing or empty."
      else r3.addInfo ("Data security plan: " ++ pyStrip v ++ ".")
    | none => r3.addErr "Data security plan description is missing or empty."
  (r4, maintForms ++ shareForms, maintenance_text, sharing_text, storage_text)

/-- Body of `validate_part_6` on the section text. -/
def part6OfText (text : String) :
    FindingSet × List RequiredForm × String × String × String :=
  match searchLineAlts text "Are you conducting a survey using any electronic media?" ynAlts with
  | none =>
    (FindingSet.addErr {} "Electronic survey question not found or improperly formatted.",
      [], "", "", "")
  | some ans =>
    if hasBox ans then
      (FindingSet.addWarn {} "Electronic survey checkbox is not marked (☐).", [], "", "", "")
    else
      let r := FindingSet.addInfo {} ("Electronic survey: " ++ ans ++ ".")
      if ans = "Yes ☑" then
        let r2 := p6YesBranch text r
        let (r3, tailForms, mt, st, sg) := p6TailStep text r2
        (r3, [⟨"Appendix C: Informed Consent Form for Internet Surveys",
          "Required for internet surveys."⟩] ++ tailForms, mt, st, sg)
      else
        let r2 := p6NoBranch text r
        let (r3, tailForms, mt, st, sg) := p6TailStep text r2
        (r3, tailForms, mt, st, sg)

/-- Embeds `validate_part_6`. -/
def validate_part_6 (ps : List String) (forms : List RequiredForm) :
    FindingSet × List RequiredForm × String × String × String :=
  let text := sliceSection ps "Part 6: Data Management Plan" "Part 7: Risk/Benefit Analysis"
  if text = "" then
    ({ errors := ["Part 6: Data Management Plan section not found."] }, forms, "", "", "")
  else
    ((part6OfText text).1, forms ++ (part6OfText text).2.1, (part6OfText text).2.2.1,
      (part6OfText text).2.2.2.1, (part6OfText text).2.2.2.2)

def p7RiskFields : List (String × String × String) :=
  [ ("Why risks are essential", "Explain why these risks are essential",
      "What have you done to minimize risks"),
    ("Minimize risks", "What have you done to minimize risks",
      "What protections have you put in place"),
    ("Protections", "What protections have you put in place",
      "What procedures have you established"),
    ("Adverse events reporting", "What procedures have you established for reporting adverse events",
      "Will the participants directly") ]

/-- Body of `validate_part_7` on the section text. -/
def part7OfText (text : String) : FindingSet × List RequiredForm :=
  let minimal := searchLineAlts text "Do you believe those risks will be no greater than minimal?" ynAlts
  let r1 :=
    match minimal with
    | none => FindingSet.addErr {} "Minimal risk question not found or improperly formatted."
    | some ans =>
      let r1a :=
        if hasBox ans then FindingSet.addWarn {} "Minimal risk checkbox is not marked (☐)."
        else FindingSet.addInfo {} ("Minimal risk: " ++ ans ++ ".")
      match captureAnchorNl text "Explain why:" "Describe all risks" with
      | some v =>
        if pyStrip v = "" then r1a.addErr "Minimal risk explanation is missing or empty."
        else r1a.addInfo "Minimal risk explanation provided."
      | none => r1a.addErr "Minimal risk explanation is missing or empty."
  let r2 :=
    match captureAnchorNl text "Describe all risks" "If risks are greater than minimal" with
    | some v =>
      if pyStrip v = "" then r1.addErr "Risks description is missing or empty."
      else
        let rt := pyStrip v
        if pyLower rt = "not applicable" ∨ pyLower rt = "no risk" then
          r1.addErr "Risks description cannot be 'Not Applicable' or 'No risk'."
        else r1.addInfo ("Risks description: " ++ rt ++ ".")
    | none => r1.addErr "Risks description is missing or empty."
  let (r3, riskForms) :=
    if minimal = some "No ☑" then
      (p7RiskFields.foldl (fun acc f =>
        match captureAnchorNl text f.2.1 f.2.2 with
        | some v =>
          if pyStrip v = "" then acc.addErr (f.1 ++ " description is missing or empty.")
          else acc.addInfo (f.1 ++ " description provided.")
        | none => acc.addErr (f.1 ++ " description is missing or empty.")) r2,
        [(⟨"Appendix B: Written Informed Consent Form",
          "Required for greater than minimal risk."⟩ : RequiredForm)])
    else (r2, [])
  let benefitsExpl := captureAnchorNl text "Please explain:" "What are the anticipated benefits to society"
  let (r4, benForms) :=
    match searchAnchorNlAlts text "Will the participants directly or indirectly benefit" ynAlts with
    | none => (r3.addErr "Participant benefits question not found or improperly formatted.",
        ([] : List RequiredForm))
    | some ans =>
      if hasBox ans then (r3.addWarn "Participant benefits checkbox is not marked (☐).", [])
      else
        let r4a := r3.addInfo ("Participant benefits: " ++ ans ++ ".")
        match benefitsExpl with
        | some v =>
          if pyStrip v = "" then
            (r4a.addErr "Participant benefits explanation is missing or empty.", [])
          else
            let r4b := r4a.addInfo "Participant benefits explanation provided."
            if ans = "Yes ☑" then
              (r4b, [⟨"Appendix B: Written Informed Consent Form",
                "Required to detail participant benefits."⟩])
            else (r4b, [])
        | none => (r4a.addErr "Participant benefits explanation is missing or empty.", [])
  let r5 :=
    match captureAnchorNl text "What are the anticipated benefits to society" "Will incentives be offered" with
    | some v =>
      if pyStrip v = "" then r4.addErr "Societal benefits description is missing or empty."
      else r4.addInfo "Societal benefits description provided."
    | none => r4.addErr "Societal benefits description is missing or empty."
  let incDetails := captureAnchorNl text "If “Yes”, please describe" "Part 8:"
  let (r6, incForms) :=
    match searchAnchorNlAlts text "Will incentives be offered" ynAlts with
    | none => (r5.addErr "Incentives question not found or improperly formatted.",
        ([] : List RequiredForm))
    | some ans =>
      if hasBox ans then (r5.addWarn "Incentives checkbox is not marked (☐).", [])
      else if ans = "Yes ☑" then
        let r6a := r5.addInfo "Incentives: Yes."
        let r6b :=
          match incDetails with
          | some v =>
            if pyStrip v = "" then r6a.addErr "Incentives description is missing or empty."
            else r6a.addInfo "Incentives description provided."
          | none => r6a.addErr "Incentives description is missing or empty."
        (r6b, [⟨"Appendix B: Written Informed Consent Form", "Required for incentives, with details."⟩])
      else
        let r6a := r5.addInfo "Incentives: No."
        match incDetails with
        | some v =>
          if pyStrip v ≠ "" then
            (r6a.addWarn "Incentives description provided when incentives is No.", [])
          else (r6a, [])
        | none => (r6a, [])
  (r6, riskForms ++ benForms ++ incForms)

/-- Embeds `validate_part_7`. -/
def validate_part_7 (ps : List String) (forms : List RequiredForm) :
    FindingSet × List RequiredForm :=
  let text := sliceSection ps "Part 7: Risk/Benefit Analysis" "Part 8: Confidentiality/Anonymity"
  if text = "" then
    ({ errors := ["Part 7: Risk/Benefit Analysis section not found."] }, forms)
  else ((part7OfText text).1, forms ++ (part7OfText text).2)

/-- The Part 8 recordings question search (the local `recordings`); the
local `recordings_answer` is assigned exactly when this is `some`. -/
def p8Recordings (text : String) : Option String :=
  searchAnchorNlAlts text "Will you be video recording" ynAlts

/-- The Part 8 identifiability question search; the local
`identifiability_answer` is assigned exactly when this is `some`. -/
def p8Identifiability (text : String) : Option String :=
  searchAnchorNlAlts text "Will the data be identifiable" ynAlts

def p8RecordingTerms : List String :=
  ["video", "audio", "photograph", "recording", "interview via video"]

/-- The recordings block of Part 8 (findings plus the forms it appends). -/
def part8RecBlock (text methodology_text involvement_text : String) :
    FindingSet × List RequiredForm :=
  match p8Recordings text with
  | none => (FindingSet.addErr {} "Recordings question not found or improperly formatted.", [])
  | some ans =>
    if hasBox ans then (FindingSet.addWarn {} "Recordings checkbox is not marked (☐).", [])
    else
      let r := FindingSet.addInfo {} ("Video/Photograph/Audio Recordings: " ++ ans ++ ".")
      let delta : List RequiredForm :=
        if ans = "Yes ☑" then
          [⟨"Appendix B: Written Informed Consent Form", "Required for recordings."⟩]
        else []
      let mentioned := anyIn p8RecordingTerms (pyLower methodology_text) ||
        anyIn p8RecordingTerms (pyLower involvement_text)
      let r2 :=
        if mentioned then
          if ans ≠ "Yes ☑" then
            r.addErr "Part 8.1 should be 'Yes' as Parts 3 or 5 mention video/audio/photograph."
          else r
        else
          if ans = "Yes ☑" then
            r.addWarn "Part 8.1 is 'Yes' but no video/audio/photograph mentioned in Parts 3 or 5."
          else r
      (r2, delta)

/-- The consent-for-recordings block of Part 8.  On the found-and-marked
path the source reads the local `recordings_answer`, which is unassigned
when the recordings question never matched: that is the `NameError`. -/
def part8ConsentBlock (text : String) (recAns : Option String) (r : FindingSet) :
    Except String FindingSet :=
  match searchAnchorNlAlts text "Will you be obtaining signed consent forms" ynAlts with
  | none => .ok (r.addErr "Consent for recordings question not found or improperly formatted.")
  | some ca =>
    if hasBox ca then .ok (r.addWarn "Consent for recordings checkbox is not marked (☐).")
    else
      let r2 := r.addInfo ("Consent for recordings: " ++ ca ++ ".")
      match recAns with
      | none => .error "NameError: name 'recordings_answer' is not defined"
      | some ra =>
        let r3 :=
          if ra = "Yes ☑" ∧ ca ≠ "Yes ☑" then
            r2.addErr "Consent for recordings must be 'Yes' when recordings is 'Yes'."
          else r2
        .ok (if ra = "No ☑" ∧ ca = "Yes ☑" then
            r3.addErr "Consent for recordings should be 'No' or unanswered when recordings is 'No'."
          else r3)

/-- The identifiability block of Part 8 with the Part 6 consistency
check. -/
def part8IdentBlock (text maintenance_text sharing_text storage_text : String) (r : FindingSet) :
    FindingSet × List RequiredForm :=
  let identMention := pyIn "identifiable" (pyLower maintenance_text) ||
    pyIn "identifiable" (pyLower sharing_text) || pyIn "identifiable" (pyLower storage_text)
  match p8Identifiability text with
  | none => (r.addErr "Identifiability question not found or improperly formatted.", [])
  | some ia =>
    if hasBox ia then (r.addWarn "Identifiability checkbox is not marked (☐).", [])
    else
      let r2 := r.addInfo ("Identifiability: " ++ ia ++ ".")
      if ia = "Yes ☑" then
        let r3 :=
          match captureAnchorNl text "If “Yes”, please explain"
            "Describe procedures to create/preserve anonymity" with
          | some v =>
            if pyStrip v = "" then
              r2.addErr "Identifiability explanation is missing or empty when identifiability is Yes."
            else r2.addInfo "Identifiability explanation provided."
          | none =>
            r2.addErr "Identifiability explanation is missing or empty when identifiability is Yes."
        let r4 :=
          if identMention then r3.addInfo "Identifiability in Part 8 is consistent with Part 6."
          else r3.addWarn "Part 8.3 is 'Yes' but Part 6 does not mention identifiable data."
        (r4, [⟨"Appendix L: Confidentiality Agreement Form", "Required for identifiable data."⟩])
      else
        (if identMention then
          r2.addErr "Part 8.3 should be 'Yes' as Part 6 mentions identifiable data."
        else r2, [])

/-- The anonymity-procedures block; the source branches on
`identifiability_answer`, so any found answer other than `No ☑`
(including an unmarked one) takes the "should be N/A / empty" side. -/
def part8AnonBlock (text : String) (ia : String) (r : FindingSet) : FindingSet :=
  let anonNa := searchAnchorNlAlts text "Describe procedures to create/preserve anonymity" naAlts
  let anonText := captureAnchorNl text "Describe procedures to create/preserve anonymity"
    "Describe procedures to preserve confidentiality"
  if ia = "No ☑" then
    if anonNa = some "N/A ☑" then
      r.addErr "Anonymity procedures cannot be N/A when identifiability is No."
    else
      match anonText with
      | some v =>
        if pyStrip v = "" then
          r.addErr "Anonymity procedures description is missing or empty when identifiability is No."
        else r.addInfo "Anonymity procedures description provided."
      | none =>
        r.addErr "Anonymity procedures description is missing or empty when identifiability is No."
  else
    let r2 :=
      match anonNa with
      | some a =>
        if a ≠ "N/A ☑" then r.addErr "Anonymity procedures should be N/A when identifiability is Yes."
        else r
      | none => r
    match anonText with
    | some v =>
      if pyStrip v ≠ "" then
        r2.addErr "Anonymity procedures should be empty when identifiability is Yes."
      else r2
    | none => r2

def p8ConfFields : List (String × String × String) :=
  [ ("During data collection", "During data collection", "While results are analyzed"),
    ("While results are analyzed", "While results are analyzed", "In publication/reporting"),
    ("In publication/reporting", "In publication/reporting", "In storage after research completion"),
    ("In storage after research completion", "In storage after research completion", "Part 10:") ]

/-- The four per-phase confidentiality narratives of Part 8. -/
def part8ConfBlock (text : String) (ia : String) (r : FindingSet) : FindingSet :=
  if ia = "Yes ☑" then
    p8ConfFields.foldl (fun acc f =>
      match captureAnchorNl text f.2.1 f.2.2 with
      | some v =>
        if pyStrip v = "" then
          acc.addErr ("Confidentiality procedures for '" ++ f.1 ++ "' are missing or empty.")
        else acc.addInfo ("Confidentiality procedures for '" ++ f.1 ++ "' provided.")
      | none =>
        acc.addErr ("Confidentiality procedures for '" ++ f.1 ++ "' are missing or empty.")) r
  else
    p8ConfFields.foldl (fun acc f =>
      match captureAnchorNl text f.2.1 f.2.2 with
      | some v =>
        if pyStrip v ≠ "" then
          acc.addWarn ("Confidentiality procedures for '" ++ f.1 ++
            "' should be empty when identifiability is No.")
        else acc
      | none => acc) r

/-- Body of `validate_part_8` on the section text: either the findings and
appended forms, or the `NameError` the source raises. -/
def part8OfText (text methodology_text involvement_text maintenance_text sharing_text
    storage_text : String) : Except String (FindingSet × List RequiredForm) := do
  let (r1, d1) := part8RecBlock text methodology_text involvement_text
  let r2 ← part8ConsentBlock text (p8Recordings text) r1
  let (r3, d2) := part8IdentBlock text maintenance_text sharing_text storage_text r2
  match p8Identifiability text with
  | none => .error "NameError: name 'identifiability_answer' is not defined"
  | some ia =>
    let r4 := part8AnonBlock text ia r3
    .ok (part8ConfBlock text ia r4, d1 ++ d2)

/-- Embeds `validate_part_8`; the `Except.error` outcome is the `NameError`
escaping the validator (and the whole pipeline). -/
def validate_part_8 (ps : List String) (forms : List RequiredForm)
    (methodology_text involvement_text maintenance_text sharing_text storage_text : String) :
    Except String (FindingSet × List RequiredForm) :=
  let text := sliceSection ps "Part 8: Confidentiality/Anonymity" "Part 10: Project Funding"
  if text = "" then
    .ok ({ errors := ["Part 8: Confidentiality/Anonymity section not found."] }, forms)
  else
    match part8OfText text methodology_text involvement_text maintenance_text sharing_text
      storage_text with
    | .ok p => .ok (p.1, forms ++ p.2)
    | .error e => .error e

/-- Body of `validate_part_10` on the section text. -/
def part10OfText (text : String) : FindingSet × List RequiredForm :=
  match searchLineAlts text "Is this project being supported by any funding sources?" ynAlts with
  | none => (FindingSet.addErr {} "Funding question not found or improperly formatted.", [])
  | some ans =>
    if hasBox ans then (FindingSet.addWarn {} "Funding checkbox is not marked (☐).", [])
    else
      let r := FindingSet.addInfo {} ("Project funding: " ++ ans ++ ".")
      let src := captureAnchorNl text "If yes, please specify the funding source(s):"
        "Is the funding external"
      let ext := searchLineAlts text "Is the funding external to Nazarbayev University?" ynAlts
      if ans = "Yes ☑" then
        let r2 :=
          match src with
          | some v =>
            if pyStrip v = "" then r.addErr "Funding source description is missing or empty."
            else r.addInfo ("Funding source: " ++ pyStrip v ++ ".")
          | none => r.addErr "Funding source description is missing or empty."
        match ext with
        | none => (r2.addErr "External funding question not found or improperly formatted.", [])
        | some ea =>
          if hasBox ea then (r2.addWarn "External funding checkbox is not marked (☐).", [])
          else
            let r3 := r2.addInfo ("External funding: " ++ ea ++ ".")
            if ea = "Yes ☑" then
              (r3, [⟨"Appendix K: Funding Source Form", "Required for external funding."⟩])
            else (r3, [])
      else
        let r2 :=
          match src with
          | some v =>
            if pyStrip v ≠ "" then r.addErr "Funding source should be empty when funding is No."
            else r
          | none => r
        let r3 :=
          match ext with
          | some ea =>
            if ea ≠ "Yes ☐" ∧ ea ≠ "No ☐" then
              r2.addErr "External funding question should be unanswered when funding is No."
            else r2
          | none => r2
        (r3, [])

/-- Embeds `validate_part_10`. -/
def validate_part_10 (ps : List String) (forms : List RequiredForm) :
    FindingSet × List RequiredForm :=
  let text := sliceSection ps "Part 10: Project Funding" "Part 11: Protocol for naming of documents"
  if text = "" then ({ errors := ["Part 10: Project Funding section not found."] }, forms)
  else ((part10OfText text).1, forms ++ (part10OfText text).2)

/-- Index of the last occurrence of `c` in `cs`. -/
def lastIdxOf (c : Char) (cs : List Char) : Option Nat :=
  match cs.reverse.findIdx? (· == c) with
  | some k => some (cs.length - 1 - k)
  | none => none

/-- Python `file_name.rsplit(".", 1)[0]`. -/
def rsplitDot (s : String) : String :=
  match lastIdxOf '.' s.data with
  | some i => String.mk (s.data.take i)
  | none => s

/-- The `\d{2}\d{2}\d{4}` date tail of the naming patterns: exactly eight
digits. -/
def isDate8 (cs : List Char) : Bool := cs.length == 8 && cs.all Char.isDigit

/-- The application-form pattern `^Surname_IREC Application_\d{8}$`. -/
def fnCheck1 (name surname : List Char) : Bool :=
  let pre := surname ++ "_IREC Application_".data
  leadsWith pre name && isDate8 (name.drop pre.length)

def fnLangs : List String := ["Eng", "Ru", "Kz"]

/-- After a candidate dash: one of the language tags (in written order)
followed by an underscore and the eight-digit date ending the name. -/
def fnTailOk (r : List Char) : Option String :=
  (fnLangs.filter (fun lang =>
    leadsWith lang.data r &&
      (match r.drop lang.data.length with
       | '_' :: d => isDate8 d
       | _ => false))).head?

/-- The lazy group `(.+?-(Eng|Ru|Kz))` of the instrument pattern: scanning
left to right, the first dash with at least one character before it whose
tail completes the match wins; `acc` holds the reversed characters
consumed by `.+?` so far. -/
def fnCheck2Core : List Char → List Char → Option (String × String)
  | acc, '-' :: r =>
    if acc ≠ [] then
      match fnTailOk r with
      | some lang => some (String.mk acc.reverse ++ "-" ++ lang, lang)
      | none => fnCheck2Core ('-' :: acc) r
    else fnCheck2Core ['-'] r
  | acc, c :: r => fnCheck2Core (c :: acc) r
  | _, [] => none

/-- The training-certificate pattern `^Surname_(CITI|TRREE)_\d{8}$` after
the `Surname_` part. -/
def fnCheck3 (tail : List Char) : Bool :=
  ["CITI", "TRREE"].any (fun tb =>
    leadsWith tb.data tail &&
      (match tail.drop tb.data.length with
       | '_' :: d => isDate8 d
       | _ => false))

/-- Embeds `validate_file_name`. -/
def validate_file_name (file_name pi_surname : String) : Bool × String :=
  let name := rsplitDot file_name
  let cs := name.data
  if fnCheck1 cs pi_surname.data then (true, "Application form naming is valid.")
  else
    let pre := pi_surname.data ++ "_".data
    if leadsWith pre cs then
      match fnCheck2Core [] (cs.drop pre.length) with
      | some (desc, lang) =>
        (true, "File '" ++ file_name ++ "' naming is valid (Description: " ++ desc ++
          ", Language: " ++ lang ++ ").")
      | none =>
        if fnCheck3 (cs.drop pre.length) then
          (true, "Ethics training certificate naming is valid for '" ++ name ++ "'.")
        else (false, "File '" ++ file_name ++ "' does not follow naming protocol.")
    else (false, "File '" ++ file_name ++ "' does not follow naming protocol.")

/-- The naming-protocol half of Part 11. -/
def p11NamingStep (pi_surname : String) (file_names : Option (List String)) (r : FindingSet) :
    FindingSet :=
  if pi_surname = "" then r.addErr "PI surname is missing; cannot validate file naming protocol."
  else
    match file_names with
    | none => r.addWarn "No file names provided for naming protocol validation."
    | some fns =>
      if fns = [] then r.addWarn "No file names provided for naming protocol validation."
      else
        let (r2, found) := fns.foldl (fun st fn =>
          let (ok, msg) := validate_file_name fn pi_surname
          if ok then (st.1.addInfo msg, st.2 || pyIn "Application form naming is valid" msg)
          else (st.1.addErr msg, st.2)) (r, false)
        if !found then
          r2.addErr
            "Main application file (Surname_IREC Application_MMDDYYYY) not found in provided file names."
        else r2

/-- Python `re.search("CHECKLIST\s*Please indicate which forms.*?\n", text,
re.DOTALL)`: the text after the newline ending the header line. -/
def checklistStartScanAux : List Char → Option (List Char)
  | [] => none
  | c :: t =>
    if leadsWith "CHECKLIST".data (c :: t) then
      let rest := (c :: t).drop "CHECKLIST".data.length
      let rest2 := rest.drop (rest.takeWhile pyIsSpace).length
      if leadsWith "Please indicate which forms".data rest2 then
        let after := rest2.drop "Please indicate which forms".data.length
        match findFrom after ['\n'] 0 with
        | some n => some (after.drop (n + 1))
        | none => checklistStartScanAux t
      else checklistStartScanAux t
    else checklistStartScanAux t

/-- Index of the checklist glyph on one line: the last `☑`/`☐` that only
whitespace follows (Python's backtracking over
`([^\n]+?)\s*(☑|☐)\s*(?:\n|$)` lands there). -/
def checklistGlyphIdx (line : List Char) : Option Nat :=
  ((line.enum.filter (fun p => (p.2 == '☑' || p.2 == '☐') &&
    (line.drop (p.1 + 1)).all pyIsSpace)).map (fun p => p.1)).getLast?

/-- One checklist line as (item, glyph): the item is the text before the
glyph with the `\s*` gap removed (at least one character is required; a
whitespace-only item keeps one character, as the lazy group does). -/
def checklistLineItem (line : List Char) : Option (String × String) :=
  match checklistGlyphIdx line with
  | none => none
  | some i =>
    match line.drop i with
    | g :: _ =>
      let pfx := line.take i
      if pfx = [] then none
      else
        let p := (pfx.reverse.dropWhile pyIsSpace).reverse
        some (String.mk (if p = [] then pfx.take 1 else p), String.mk [g])
    | [] => none

/-- Python `re.findall("([^\n]+?)\s*(☑|☐)\s*(?:\n|$)", checklist_text,
re.DOTALL)`: one (item, glyph) pair per line holding a trailing glyph. -/
def checklistItems (cs : List Char) : List (String × String) :=
  (cs.splitOn '\n').filterMap checklistLineItem

/-- Python dict update semantics for the checklist comprehension: first
insertion fixes the position, a later equal key overwrites the value. -/
def dictInsert (d : List (String × String)) (k v : String) : List (String × String) :=
  if d.any (fun p => p.1 == k) then d.map (fun p => if p.1 = k then (k, v) else p)
  else d ++ [(k, v)]

/-- The `checked_forms` mapping: items keyed by their stripped label. -/
def checkedFormsDict (items : List (String × String)) : List (String × String) :=
  items.foldl (fun d p => dictInsert d (pyStrip p.1) p.2) []

def dictLookup (d : List (String × String)) (k : String) : Option String :=
  (d.find? (fun p => p.1 == k)).map (fun p => p.2)

/-- One required form checked against the parsed checklist mapping. -/
def reconcileStep (checked : List (String × String)) (r : FindingSet) (f : RequiredForm) :
    FindingSet :=
  let form_name := pyStrip f.form
  match dictLookup checked form_name with
  | none => r.addErr ("Required form '" ++ form_name ++ "' not listed in checklist.")
  | some status =>
    if status ≠ "☑" then
      r.addErr ("Required form '" ++ form_name ++ "' is listed but not checked (☐).")
    else r.addInfo ("Required form '" ++ form_name ++ "' is correctly checked (☑).")

/-- One checklist entry checked against the required-form name set: a
marked label that is not required draws a warning. -/
def checklistWarnStep (names : List String) (acc : FindingSet) (p : String × String) :
    FindingSet :=
  if !names.contains p.1 && p.2 == "☑" then
    acc.addWarn ("Form '" ++ p.1 ++ "' is checked but not required.")
  else acc

/-- The checklist reconciliation of `validate_part_11_and_checklist`: every
required form is looked up in the mapping, then every checked label not
among the required form names draws a warning. -/
def reconcileChecklist (required_forms : List RequiredForm) (checked : List (String × String))
    (r : FindingSet) : FindingSet :=
  let r2 := required_forms.foldl (reconcileStep checked) r
  let names := required_forms.map (fun f => pyStrip f.form)
  checked.foldl (checklistWarnStep names) r2

/-- Embeds `validate_part_11_and_checklist`. -/
def validate_part_11_and_checklist (ps : List String) (forms : List RequiredForm)
    (pi_surname : String) (file_names : Option (List String)) : FindingSet × List RequiredForm :=
  let text := sliceToEnd ps "Part 11: Protocol for naming of documents"
  if text = "" then
    ({ errors := ["Part 11: Protocol for naming of documents section not found."] }, forms)
  else
    let r1 := p11NamingStep pi_surname file_names {}
    match checklistStartScanAux text.data with
    | none => (r1.addErr "Checklist section not found in Part 11.", forms)
    | some rest =>
      let items := checklistItems rest
      if items = [] then (r1.addErr "No checklist items found in Part 11.", forms)
      else (reconcileChecklist forms (checkedFormsDict items) r1, forms)

/-- The `summary` dictionary of the report. -/
structure Summary where
  errors : Nat
  warnings : Nat
  info : Nat
  deriving DecidableEq, Repr

/-- The consolidated report `validate_irec_application` returns. -/
structure ValidationReport where
  submission_id : String
  timestamp : String
  parts : List (String × FindingSet)
  summary : Summary
  required_forms : List RequiredForm
  deriving DecidableEq, Repr

/-- Embeds `validate_irec_application`.  `now` is the `datetime.now()`
instant of the run, `submission_id` the fresh `uuid4` and `timestamp` the
formatted capture time — the three non-deterministic inputs taken as
parameters.  The forms list the orchestrator seeds in the source is
discarded unread when Part 3 returns its own seeded list, so it does not
appear here.  The `Except.error` outcome is the `NameError` escaping
`validate_part_8`. -/
def validate_irec_application (ps : List String) (file_names : Option (List String))
    (now : Int) (submission_id timestamp : String) : Except String ValidationReport :=
  let v0 := validate_part_0 ps
  let p1 := validate_part_1 ps v0.2
  let v2 := validate_part_2 ps now
  let v3 := validate_part_3 ps
  let v4 := validate_part_4 ps v3.2.1
  let v5 := validate_part_5 ps v4.2
  let v6 := validate_part_6 ps v5.2.1
  let v7 := validate_part_7 ps v6.2.1
  match validate_part_8 ps v7.2 v3.2.2 v5.2.2 v6.2.2.1 v6.2.2.2.1 v6.2.2.2.2 with
  | .error e => .error e
  | .ok v8 =>
    let v10 := validate_part_10 ps v8.2
    let v11 := validate_part_11_and_checklist ps v10.2 v2.2 file_names
    let parts := [("Part 0", v0.1), ("Part 1", p1), ("Part 2", v2.1), ("Part 3", v3.1),
      ("Part 4", v4.1), ("Part 5", v5.1), ("Part 6", v6.1), ("Part 7", v7.1), ("Part 8", v8.1),
      ("Part 10", v10.1), ("Part 11", v11.1)]
    let summary := parts.foldl (fun s p =>
      ⟨s.errors + p.2.errors.length, s.warnings + p.2.warnings.length,
        s.info + p.2.info.length⟩) (⟨0, 0, 0⟩ : Summary)
    .ok ⟨submission_id, timestamp, parts, summary, v11.2⟩

/-- A Part 8 section whose consent question is present and checked while
the recordings question is absent: the stream on which the source raises
`NameError`. -/
def c1Stream : List String :=
  [ "Part 8: Confidentiality/Anonymity",
    "Will you be obtaining signed consent forms from participants for the recordings?",
    "Yes ☑",
    "Will the data be identifiable?",
    "No ☑",
    "Part 10: Project Funding" ]

/-- A Part 3 section whose methodology mentions an interview and whose
research sites mention Kazakhstan. -/
def c2Stream : List String :=
  [ "Part 3: Research Design",
    "What is the purpose of the research?",
    "To study teaching.",
    "What question(s) do you hope to answer?",
    "How do teachers teach?",
    "Describe the data collection methodology",
    "We will conduct an interview study.",
    "Briefly describe the data analysis processes",
    "Coding.",
    "Briefly describe the research sites",
    "Schools in Kazakhstan.",
    "Part 4: Participants" ]

/-- A Part 4 section answering the recruitment question `No ☑` while the
contact-method N/A checkbox stands unchecked (`N/A ☐`). -/
def c3Stream : List String :=
  [ "Part 4: Participants",
    "Will participants be recruited? No ☑",
    "How will you contact potential participants",
    "N/A ☐",
    "Describe the method for recruiting participants",
    "N/A ☑",
    "Exclusions:",
    "N/A ☑",
    "Part 5: Detailed Procedures" ]

/-- A Part 0 section answering the exemption question `No ☑` while the f1
sub-category checkbox is checked. -/
def c6Stream : List String :=
  [ "Part 0: Do I Submit an NU IREC Application?",
    "Does your research involve human subjects?",
    "Yes ☑",
    "Is this project being conducted solely to fulfill course requirements?",
    "No ☑",
    "Is this project a quality assurance activity?",
    "No ☑",
    "Would you like to use this study to launch future investigations?",
    "No ☑",
    "Would you like to disseminate or publish findings?",
    "Yes ☑",
    "Do you think this research is eligible for an Exemption?",
    "No ☑",
    "f1 ☑ Research conducted in established or commonly accepted educational settings",
    "f2 ☐ Research involving the use of educational tests",
    "f3 ☐ Research involving the collection or study of existing data",
    "Part 1: Cover Sheet" ]

/-- A Part 2 section whose PI training date is 10/13/2023: exactly three
calendar years minus one day before noon of 2026-10-12 (the span contains
the leap day 2024-02-29). -/
def c7Stream : List String :=
  [ "Part 2: Research Team Details",
    "Principal Investigator",
    "Name: John Smith",
    "CITI Training completion date: 10/13/2023",
    "Part 3: Research Design" ]

/-- Noon of 2026-10-12 as the `datetime.now()` instant. -/
def c7Now : Int := (⟨2026, 10, 12⟩ : PDate).toSeconds + 43200

/-- The first six required forms accumulated for a qualitative methodology
when the sites text names Kazakhstan. -/
def c2ExpectedForms : List RequiredForm :=
  [ ⟨"Appendix A: IREC Application Form", "Required for all submissions."⟩,
    ⟨"CITI Training Certificates", "Required for all team members."⟩,
    ⟨"Appendix B: Written Informed Consent Form",
      "Required for qualitative research in English, Russian, Kazakh."⟩,
    ⟨"Appendix D: Oral Consent Script",
      "Required if oral consent is used in English, Russian, Kazakh."⟩,
    ⟨"Interview Questions/Focus Group Guides", "Required for qualitative methods."⟩,
    ⟨"Recruitment Materials (e.g., emails, flyers)", "Required for participant notification."⟩ ]

@[simp] theorem addErr_errors (r : FindingSet) (m : String) :
    (r.addErr m).errors = r.errors ++ [m] := rfl

@[simp] theorem addErr_warnings (r : FindingSet) (m : String) :
    (r.addErr m).warnings = r.warnings := rfl

@[simp] theorem addErr_info (r : FindingSet) (m : String) : (r.addErr m).info = r.info := rfl

@[simp] theorem addWarn_errors (r : FindingSet) (m : String) : (r.addWarn m).errors = r.errors := rfl

@[simp] theorem addWarn_warnings (r : FindingSet) (m : String) :
    (r.addWarn m).warnings = r.warnings ++ [m] := rfl

@[simp] theorem addWarn_info (r : FindingSet) (m : String) : (r.addWarn m).info = r.info := rfl

@[simp] theorem addInfo_errors (r : FindingSet) (m : String) : (r.addInfo m).errors = r.errors := rfl

@[simp] theorem addInfo_warnings (r : FindingSet) (m : String) :
    (r.addInfo m).warnings = r.warnings := rfl

@[simp] theorem addInfo_info (r : FindingSet) (m : String) :
    (r.addInfo m).info = r.info ++ [m] := rfl

theorem reconcileStep_mem_errors (checked : List (String × String)) (r : FindingSet)
    (f : RequiredForm) (m : String) (h : m ∈ r.errors) :
    m ∈ (reconcileStep checked r f).errors := by
  rcases hd : dictLookup checked (pyStrip f.form) with _ | s
  · simp [reconcileStep, hd, h]
  · simp only [reconcileStep, hd]
    split <;> simp [h]

theorem reconcileStep_mem_info (checked : List (String × String)) (r : FindingSet)
    (f : RequiredForm) (m : String) (h : m ∈ r.info) :
    m ∈ (reconcileStep checked r f).info := by
  rcases hd : dictLookup checked (pyStrip f.form) with _ | s
  · simp [reconcileStep, hd, h]
  · simp only [reconcileStep, hd]
    split <;> simp [h]

theorem reconcileStep_warnings (checked : List (String × String)) (r : FindingSet)
    (f : RequiredForm) : (reconcileStep checked r f).warnings = r.warnings := by
  rcases hd : dictLookup checked (pyStrip f.form) with _ | s
  · simp [reconcileStep, hd]
  · simp only [reconcileStep, hd]
    split <;> simp

theorem reconcileFold_mem_errors (checked : List (String × String)) (forms : List RequiredForm) :
    ∀ (r : FindingSet) (m : String), m ∈ r.errors →
      m ∈ (forms.foldl (reconcileStep checked) r).errors := by
  induction forms with
  | nil => intro r m h; simpa using h
  | cons f l ih =>
    intro r m h
    simpa [List.foldl] using ih _ _ (reconcileStep_mem_errors checked r f m h)

theorem reconcileFold_mem_info (checked : List (String × String)) (forms : List RequiredForm) :
    ∀ (r : FindingSet) (m : String), m ∈ r.info →
      m ∈ (forms.foldl (reconcileStep checked) r).info := by
  induction forms with
  | nil => intro r m h; simpa using h
  | cons f l ih =>
    intro r m h
    simpa [List.foldl] using ih _ _ (reconcileStep_mem_info checked r f m h)

theorem reconcileFold_warnings (checked : List (String × String)) (forms : List RequiredForm) :
    ∀ r : FindingSet, (forms.foldl (reconcileStep checked) r).warnings = r.warnings := by
  induction forms with
  | nil => intro r; rfl
  | cons f l ih =>
    intro r
    simpa [List.foldl, reconcileStep_warnings] using ih (reconcileStep checked r f)

theorem reconcileFold_emit (checked : List (String × String)) (forms : List RequiredForm)
    (f : RequiredForm) (hf : f ∈ forms) (m : String)
    (hstep : ∀ r : FindingSet, m ∈ (reconcileStep checked r f).errors) :
    ∀ r : FindingSet, m ∈ (forms.foldl (reconcileStep checked) r).errors := by
  induction forms with
  | nil => cases hf
  | cons g l ih =>
    intro r
    rcases List.mem_cons.mp hf with h | h
    · subst h
      simpa [List.foldl] using reconcileFold_mem_errors checked l _ m (hstep r)
    · simpa [List.foldl] using ih h (reconcileStep checked r g)

theorem reconcileFold_emit_info (checked : List (String × String)) (forms : List RequiredForm)
    (f : RequiredForm) (hf : f ∈ forms) (m : String)
    (hstep : ∀ r : FindingSet, m ∈ (reconcileStep checked r f).info) :
    ∀ r : FindingSet, m ∈ (forms.foldl (reconcileStep checked) r).info := by
  induction forms with
  | nil => cases hf
  | cons g l ih =>
    intro r
    rcases List.mem_cons.mp hf with h | h
    · subst h
      simpa [List.foldl] using reconcileFold_mem_info checked l _ m (hstep r)
    · simpa [List.foldl] using ih h (reconcileStep checked r g)

theorem checklistWarnStep_errors (names : List String) (acc : FindingSet) (p : String × String) :
    (checklistWarnStep names acc p).errors = acc.errors := by
  unfold checklistWarnStep; split <;> simp

theorem checklistWarnStep_info (names : List String) (acc : FindingSet) (p : String × String) :
    (checklistWarnStep names acc p).info = acc.info := by
  unfold checklistWarnStep; split <;> simp

theorem warnFold_errors (names : List String) (checked : List (String × String)) :
    ∀ r : FindingSet, (checked.foldl (checklistWarnStep names) r).errors = r.errors := by
  induction checked with
  | nil => intro r; rfl
  | cons p l ih =>
    intro r
    simpa [List.foldl, checklistWarnStep_errors] using ih (checklistWarnStep names r p)

theorem warnFold_info (names : List String) (checked : List (String × String)) :
    ∀ r : FindingSet, (checked.foldl (checklistWarnStep names) r).info = r.info := by
  induction checked with
  | nil => intro r; rfl
  | cons p l ih =>
    intro r
    simpa [List.foldl, checklistWarnStep_info] using ih (checklistWarnStep names r p)

theorem warnFold_mem (names : List String) (checked : List (String × String))
    (m : String) : ∀ r : FindingSet, m ∈ r.warnings →
      m ∈ (checked.foldl (checklistWarnStep names) r).warnings := by
  induction checked with
  | nil => intro r h; simpa using h
  | cons p l ih =>
    intro r h
    refine ih (checklistWarnStep names r p) ?_
    unfold checklistWarnStep
    split <;> simp [h]

theorem warnFold_emit (names : List String) (checked : List (String × String))
    (p : String × String) (hp : p ∈ checked) (hne : names.contains p.1 = false)
    (hchk : p.2 = "☑") :
    ∀ r : FindingSet, ("Form '" ++ p.1 ++ "' is checked but not required.") ∈
      (checked.foldl (checklistWarnStep names) r).warnings := by
  induction checked with
  | nil => cases hp
  | cons q l ih =>
    intro r
    rcases List.mem_cons.mp hp with h | h
    · subst h
      have hm : ("Form '" ++ p.1 ++ "' is checked but not required.") ∈
          (checklistWarnStep names r p).warnings := by
        unfold checklistWarnStep
        rw [hne, hchk]
        simp
      simpa [List.foldl] using warnFold_mem names l _ (checklistWarnStep names r p) hm
    · simpa [List.foldl] using ih h (checklistWarnStep names r q)

/-- C4: on the required-forms list `[{form:"X"}, {form:"Y"}]` and the parsed
checklist mapping `{"X": unchecked, "Z": checked}` the reconciler produces
exactly the three findings (error: X listed but not checked; error: Y not
listed; warning: Z checked but not required); in general a required form
absent from the checklist or present-but-unmarked yields an error,
present-and-marked yields an info, and a checked label not among the
required form names yields a warning. -/
theorem c4_checklist_reconciliation :
    (reconcileChecklist [⟨"X", "r1"⟩, ⟨"Y", "r2"⟩] [("X", "☐"), ("Z", "☑")] {} =
      { errors := ["Required form 'X' is listed but not checked (☐).",
          "Required form 'Y' not listed in checklist."],
        warnings := ["Form 'Z' is checked but not required."], info := [] }) ∧
    (∀ (forms : List RequiredForm) (checked : List (String × String)) (r : FindingSet)
      (f : RequiredForm), f ∈ forms → dictLookup checked (pyStrip f.form) = none →
      ("Required form '" ++ pyStrip f.form ++ "' not listed in checklist.") ∈
        (reconcileChecklist forms checked r).errors) ∧
    (∀ (forms : List RequiredForm) (checked : List (String × String)) (r : FindingSet)
      (f : RequiredForm) (s : String), f ∈ forms →
      dictLookup checked (pyStrip f.form) = some s → s ≠ "☑" →
      ("Required form '" ++ pyStrip f.form ++ "' is listed but not checked (☐).") ∈
        (reconcileChecklist forms checked r).errors) ∧
    (∀ (forms : List RequiredForm) (checked : List (String × String)) (r : FindingSet)
      (f : RequiredForm), f ∈ forms → dictLookup checked (pyStrip f.form) = some "☑" →
      ("Required form '" ++ pyStrip f.form ++ "' is correctly checked (☑).") ∈
        (reconcileChecklist forms checked r).info) ∧
    (∀ (forms : List RequiredForm) (checked : List (String × String)) (r : FindingSet)
      (p : String × String), p ∈ checked → p.2 = "☑" →
      (forms.map (fun f => pyStrip f.form)).contains p.1 = false →
      ("Form '" ++ p.1 ++ "' is checked but not required.") ∈
        (reconcileChecklist forms checked r).warnings) := by
  refine ⟨by decide, ?_, ?_, ?_, ?_⟩
  · intro forms checked r f hf hd
    unfold reconcileChecklist
    rw [warnFold_errors]
    refine reconcileFold_emit checked forms f hf _ ?_ r
    intro r2
    simp [reconcileStep, hd]
  · intro forms checked r f s hf hd hs
    unfold reconcileChecklist
    rw [warnFold_errors]
    refine reconcileFold_emit checked forms f hf _ ?_ r
    intro r2
    simp [reconcileStep, hd, hs]
  · intro forms checked r f hf hd
    unfold reconcileChecklist
    rw [warnFold_info]
    refine reconcileFold_emit_info checked forms f hf _ ?_ r
    intro r2
    simp [reconcileStep, hd]
  · intro forms checked r p hp hchk hne
    unfold reconcileChecklist
    exact warnFold_emit _ checked p hp hne hchk _

/-- C4 witness: the general clauses applied at concrete inputs. -/
theorem c4_checklist_reconciliation_witness :
    ("Required form '" ++ pyStrip "Q" ++ "' not listed in checklist.") ∈
      (reconcileChecklist [⟨"Q", "r"⟩] [("Z", "☑")] {}).errors ∧
    ("Form '" ++ "Z" ++ "' is checked but not required.") ∈
      (reconcileChecklist [⟨"Q", "r"⟩] [("Z", "☑")] {}).warnings :=
  ⟨c4_checklist_reconciliation.2.1 [⟨"Q", "r"⟩] [("Z", "☑")] {} ⟨"Q", "r"⟩ (by decide) (by decide),
   c4_checklist_reconciliation.2.2.2.2 [⟨"Q", "r"⟩] [("Z", "☑")] {} ("Z", "☑") (by decide)
     (by decide) (by decide)⟩

set_option maxRecDepth 100000

theorem sliceSectionAux_no_marker (startMark stopMark : String) :
    ∀ (ps : List String) (acc : String), (∀ p ∈ ps, pyIn startMark p = false) →
      sliceSectionAux startMark stopMark ps false acc = acc := by
  intro ps
  induction ps with
  | nil => intro acc _; rfl
  | cons p rest ih =>
    intro acc h
    have hp : pyIn startMark p = false := h p (List.mem_cons_self p rest)
    simp only [sliceSectionAux, hp, Bool.or_false, if_false, Bool.false_eq_true]
    split
    · rfl
    · exact ih acc (fun q hq => h q (List.mem_cons_of_mem p hq))

/-- A stream none of whose paragraphs contains the start marker slices to
the empty section text. -/
theorem sliceSection_no_marker (ps : List String) (startMark stopMark : String)
    (h : ∀ p ∈ ps, pyIn startMark p = false) : sliceSection ps startMark stopMark = "" :=
  sliceSectionAux_no_marker startMark stopMark ps "" h

/-- C5: a stream in which a section's start marker occurs in no paragraph
gives that section exactly the single "section not found" error (no
warnings, no info; Part 3 still returns its two seed forms), and every
validator is a function of its own slice alone, so equal slices give
equal findings for the other sections. -/
theorem c5_section_isolation :
    (∀ ps : List String, (∀ p ∈ ps, pyIn part0Marker p = false) →
      validate_part_0 ps = ({ errors := ["Part 0 section not found."] }, false)) ∧
    (∀ ps : List String, (∀ p ∈ ps, pyIn "Part 3: Research Design" p = false) →
      validate_part_3 ps =
        ({ errors := ["Part 3: Research Design section not found."] }, p3SeedForms, "")) ∧
    (∀ ps qs : List String,
      sliceSection ps part0Marker "Part 1: Cover Sheet" =
        sliceSection qs part0Marker "Part 1: Cover Sheet" →
      validate_part_0 ps = validate_part_0 qs) ∧
    (∀ (ps qs : List String) (ex : Bool),
      sliceSection ps "Part 1: Cover Sheet" "Part 2: Research Team Details" =
        sliceSection qs "Part 1: Cover Sheet" "Part 2: Research Team Details" →
      validate_part_1 ps ex = validate_part_1 qs ex) ∧
    (∀ (ps qs : List String) (now : Int),
      sliceSection ps "Part 2: Research Team Details" "Part 3: Research Design" =
        sliceSection qs "Part 2: Research Team Details" "Part 3: Research Design" →
      validate_part_2 ps now = validate_part_2 qs now) ∧
    (∀ ps qs : List String,
      sliceSection ps "Part 3: Research Design" "Part 4: Participants" =
        sliceSection qs "Part 3: Research Design" "Part 4: Participants" →
      validate_part_3 ps = validate_part_3 qs) ∧
    (∀ (ps qs : List String) (forms : List RequiredForm),
      sliceSection ps "Part 4: Participants" "Part 5: Detailed Procedures" =
        sliceSection qs "Part 4: Participants" "Part 5: Detailed Procedures" →
      validate_part_4 ps forms = validate_part_4 qs forms) ∧
    (∀ (ps qs : List String) (forms : List RequiredForm),
      sliceSection ps "Part 5: Detailed Procedures" "Part 6: Data Management Plan" =
        sliceSection qs "Part 5: Detailed Procedures" "Part 6: Data Management Plan" →
      validate_part_5 ps forms = validate_part_5 qs forms) ∧
    (∀ (ps qs : List String) (forms : List RequiredForm),
      sliceSection ps "Part 6: Data Management Plan" "Part 7: Risk/Benefit Analysis" =
        sliceSection qs "Part 6: Data Management Plan" "Part 7: Risk/Benefit Analysis" →
      validate_part_6 ps forms = validate_part_6 qs forms) ∧
    (∀ (ps qs : List String) (forms : List RequiredForm),
      sliceSection ps "Part 7: Risk/Benefit Analysis" "Part 8: Confidentiality/Anonymity" =
        sliceSection qs "Part 7: Risk/Benefit Analysis" "Part 8: Confidentiality/Anonymity" →
      validate_part_7 ps forms = validate_part_7 qs forms) ∧
    (∀ (ps qs : List String) (forms : List RequiredForm) (a b c d e : String),
      sliceSection ps "Part 8: Confidentiality/Anonymity" "Part 10: Project Funding" =
        sliceSection qs "Part 8: Confidentiality/Anonymity" "Part 10: Project Funding" →
      validate_part_8 ps forms a b c d e = validate_part_8 qs forms a b c d e) ∧
    (∀ (ps qs : List String) (forms : List RequiredForm),
      sliceSection ps "Part 10: Project Funding" "Part 11: Protocol for naming of documents" =
        sliceSection qs "Part 10: Project Funding" "Part 11: Protocol for naming of documents" →
      validate_part_10 ps forms = validate_part_10 qs forms) ∧
    (∀ (ps qs : List String) (forms : List RequiredForm) (sn : String)
      (fns : Option (List String)),
      sliceToEnd ps "Part 11: Protocol for naming of documents" =
        sliceToEnd qs "Part 11: Protocol for naming of documents" →
      validate_part_11_and_checklist ps forms sn fns =
        validate_part_11_and_checklist qs forms sn fns) := by
  refine ⟨?_, ?_, ?_, ?_, ?_, ?_, ?_, ?_, ?_, ?_, ?_, ?_, ?_⟩
  · intro ps h
    unfold validate_part_0
    rw [sliceSection_no_marker ps _ _ h]
    rfl
  · intro ps h
    unfold validate_part_3
    rw [sliceSection_no_marker ps _ _ h]
    rfl
  · intro ps qs h
    unfold validate_part_0
    rw [h]
  · intro ps qs ex h
    unfold validate_part_1
    rw [h]
  · intro ps qs now h
    unfold validate_part_2
    rw [h]
  · intro ps qs h
    unfold validate_part_3
    rw [h]
  · intro ps qs forms h
    unfold validate_part_4
    rw [h]
  · intro ps qs forms h
    unfold validate_part_5
    rw [h]
  · intro ps qs forms h
    unfold validate_part_6
    rw [h]
  · intro ps qs forms h
    unfold validate_part_7
    rw [h]
  · intro ps qs forms a b c d e h
    unfold validate_part_8
    rw [h]
  · intro ps qs forms h
    unfold validate_part_10
    rw [h]
  · intro ps qs forms sn fns h
    unfold validate_part_11_and_checklist
    rw [h]

/-- C5 witness: the single-error shape on a concrete marker-free stream and
slice determinism at a concrete pair. -/
theorem c5_section_isolation_witness :
    validate_part_0 ["some unrelated paragraph"] =
      ({ errors := ["Part 0 section not found."] }, false) ∧
    validate_part_3 ["some unrelated paragraph"] =
      ({ errors := ["Part 3: Research Design section not found."] }, p3SeedForms, "") ∧
    validate_part_4 [] [] = validate_part_4 [] [] :=
  ⟨c5_section_isolation.1 ["some unrelated paragraph"] (by decide),
   c5_section_isolation.2.1 ["some unrelated paragraph"] (by decide),
   c5_section_isolation.2.2.2.2.2.2.1 [] [] [] rfl⟩

/-- C1 (the claim fails on the code): on a stream whose Part 8 section has
the consent-for-recordings question present and checked while the
recordings question is absent, `validate_part_8` reads the never-assigned
local `recordings_answer` and raises `NameError`, and
`validate_irec_application` propagates the exception instead of
returning a report. -/
theorem c1_part8_nameError :
    validate_part_8 c1Stream [] "" "" "" "" "" =
      .error "NameError: name 'recordings_answer' is not defined" ∧
    validate_irec_application c1Stream none 0 "sub-id" "2026-10-12 12:00:00" =
      .error "NameError: name 'recordings_answer' is not defined" := ⟨rfl, rfl⟩

/-- C2 counterexample: on a Part 3 whose methodology contains "interview"
and whose sites text contains "kazakhstan", the accumulation order is as
claimed but the Interview-Guides and Recruitment-Materials entries do not
cite "Russian, Kazakh" in their reasons, refuting the claim that all four
qualitative-cluster entries do. -/
theorem c2_counterexample :
    pyIn "interview" (pyLower (validate_part_3 c2Stream).2.2) = true ∧
    pyIn "kazakhstan"
      (p3SitesText (sliceSection c2Stream "Part 3: Research Design" "Part 4: Participants")) =
      true ∧
    (validate_part_3 c2Stream).2.1.take 6 = c2ExpectedForms ∧
    pyIn "Russian, Kazakh" "Required for qualitative methods." = false ∧
    pyIn "Russian, Kazakh" "Required for participant notification." = false := by decide

/-- C2 amended: with "interview" in the extracted methodology (lower-cased)
and "kazakhstan" in the sites text, the required-forms list starts with
the two unconditional entries followed by the qualitative cluster in
order, where the Appendix B and Appendix D reasons cite
"Russian, Kazakh" but the Interview-Guides and Recruitment-Materials
reasons are fixed strings without languages. -/
theorem c2_qualitative_forms (ps : List String)
    (hm : pyIn "interview" (pyLower (validate_part_3 ps).2.2) = true)
    (hs : pyIn "kazakhstan"
      (p3SitesText (sliceSection ps "Part 3: Research Design" "Part 4: Participants")) = true) :
    (validate_part_3 ps).2.1.take 6 = c2ExpectedForms ∧
    pyIn "Russian, Kazakh" "Required for qualitative research in English, Russian, Kazakh." =
      true ∧
    pyIn "Russian, Kazakh" "Required if oral consent is used in English, Russian, Kazakh." =
      true ∧
    pyIn "Russian, Kazakh" "Required for qualitative methods." = false ∧
    pyIn "Russian, Kazakh" "Required for participant notification." = false := by
  refine ⟨?_, by decide, by decide, by decide, by decide⟩
  by_cases h : sliceSection ps "Part 3: Research Design" "Part 4: Participants" = ""
  · have hv : validate_part_3 ps =
        ({ errors := ["Part 3: Research Design section not found."] }, p3SeedForms, "") := by
      unfold validate_part_3
      rw [h]
      rfl
    rw [hv] at hm
    exact absurd hm (by decide)
  · have hv : validate_part_3 ps =
        part3OfText (sliceSection ps "Part 3: Research Design" "Part 4: Participants") := by
      unfold validate_part_3
      rw [if_neg h]
    rw [hv] at hm ⊢
    simp only [part3OfText] at hm ⊢
    have hq : anyIn p3QualiTerms
        (pyLower ((p3FieldsLoop
          (sliceSection ps "Part 3: Research Design" "Part 4: Participants")).2)) = true := by
      simp only [anyIn, p3QualiTerms, List.any, Bool.or_eq_true]
      exact Or.inl hm
    have hl : p3Languages
        (p3SitesText (sliceSection ps "Part 3: Research Design" "Part 4: Participants")) =
        ["English", "Russian", "Kazakh"] := by
      simp [p3Languages, hs]
    simp only [p3FormsCascade, hl, hq, if_true]
    have hi : String.intercalate ", " ["English", "Russian", "Kazakh"] =
        "English, Russian, Kazakh" := by decide
    rw [hi]
    simp [p3SeedForms, p3FormsQuali, c2ExpectedForms, List.take]

/-- C2 witness: the amended statement at the concrete Part 3 stream. -/
theorem c2_qualitative_forms_witness :
    (validate_part_3 c2Stream).2.1.take 6 = c2ExpectedForms ∧
    pyIn "Russian, Kazakh" "Required for qualitative research in English, Russian, Kazakh." =
      true ∧
    pyIn "Russian, Kazakh" "Required if oral consent is used in English, Russian, Kazakh." =
      true ∧
    pyIn "Russian, Kazakh" "Required for qualitative methods." = false ∧
    pyIn "Russian, Kazakh" "Required for participant notification." = false :=
  c2_qualitative_forms c2Stream (by decide) (by decide)

/-- C3 counterexample: in Part 4 with recruitment answered `No ☑`, the
contact-method N/A token is found but unchecked (`N/A ☐`) and the
validator records an error-level finding for it, refuting the claim that
a found-but-unchecked token never yields more than a warning. -/
theorem c3_counterexample :
    searchAnchorNlAlts (sliceSection c3Stream "Part 4: Participants" "Part 5: Detailed Procedures")
      "How will you contact potential participants" naAlts = some "N/A ☐" ∧
    "Contact method should be N/A when recruitment is No." ∈
      (validate_part_4 c3Stream []).1.errors := by decide

/-- C3 amended: a found-but-unchecked Yes/No answer adds exactly one
warning and takes no answer-dependent branch (shown for the Part 0
question loop, the Part 4 special-population loop and the Part 8
recordings block), but the N/A checkboxes are exceptions: an unchecked
contact-method N/A under recruitment-No in Part 4 and an unchecked
anonymity N/A under a non-`No ☑` identifiability answer in Part 8 yield
errors. -/
theorem c3_unchecked_tokens :
    (∀ (text : String) (st : P0State) (q : P0Question) (ans : String),
      searchAnchorNlAlts text q.anchor ynAlts = some ans → hasBox ans = true →
      p0Step text st q =
        { st with r := st.r.addWarn ("Checkbox for '" ++ q.text ++ "' is not marked (☐).") }) ∧
    (∀ (text : String) (st : FindingSet × List String × List RequiredForm)
      (p : String × String) (ans : String),
      searchDotallAlts text p.2 ynAlts = some ans → hasBox ans = true →
      p4PopStep text st p =
        (st.1.addWarn ("Checkbox for '" ++ p.1 ++ "' is not marked (☐)."), st.2)) ∧
    (∀ (text mtext itext ans : String),
      p8Recordings text = some ans → hasBox ans = true →
      part8RecBlock text mtext itext =
        (FindingSet.addWarn {} "Recordings checkbox is not marked (☐).", [])) ∧
    (∀ (text : String) (r : FindingSet),
      searchLineAlts text "Will participants be recruited?" ynAlts = some "No ☑" →
      searchAnchorNlAlts text "How will you contact potential participants" naAlts =
        some "N/A ☐" →
      "Contact method should be N/A when recruitment is No." ∈ (p4RecruitStep text r).1.errors) ∧
    (∀ (text : String) (r : FindingSet),
      searchAnchorNlAlts text "Describe procedures to create/preserve anonymity" naAlts =
        some "N/A ☐" →
      "Anonymity procedures should be N/A when identifiability is Yes." ∈
        (part8AnonBlock text "Yes ☑" r).errors) := by
  refine ⟨?_, ?_, ?_, ?_, ?_⟩
  · intro text st q ans hsearch hbox
    simp [p0Step, hsearch, hbox]
  · intro text st p ans hsearch hbox
    simp [p4PopStep, hsearch, hbox]
  · intro text mtext itext ans hsearch hbox
    simp [part8RecBlock, hsearch, hbox]
  · intro text r hrec hna
    simp only [p4RecruitStep, hrec, hna]
    rw [if_neg (by decide : ¬ hasBox "No ☑" = true)]
    rw [if_neg (by decide : ¬ ("No ☑" : String) = "Yes ☑")]
    have hc : decide (("N/A ☐" : String) ≠ "N/A ☑") = true := by decide
    simp only [hc, Bool.true_or, if_true]
    split <;> simp
  · intro text r hna
    unfold part8AnonBlock
    rw [hna]
    rw [if_neg (by decide : ¬ ("Yes ☑" : String) = "No ☑")]
    simp only [if_pos (by decide : ("N/A ☐" : String) ≠ "N/A ☑")]
    split <;> (try split) <;> simp

/-- C3 witness: the amended clauses at concrete inputs. -/
theorem c3_unchecked_tokens_witness :
    p0Step "Does your research involve human subjects\n Yes ☐\n" ⟨{}, false, false⟩
      ⟨"Does your research involve human subjects?", "Does your research involve human subjects",
        fun a => pyStartsWith a "Yes"⟩ =
      ⟨FindingSet.addWarn {}
        ("Checkbox for '" ++ "Does your research involve human subjects?" ++
          "' is not marked (☐)."), false, false⟩ ∧
    "Contact method should be N/A when recruitment is No." ∈
      (p4RecruitStep
        "Will participants be recruited? No ☑\nHow will you contact potential participants\nN/A ☐\n"
        {}).1.errors :=
  ⟨c3_unchecked_tokens.1 _ ⟨{}, false, false⟩ _ "Yes ☐" (by decide) (by decide),
   c3_unchecked_tokens.2.2.2.1 _ {} (by decide) (by decide)⟩

/-- C6 counterexample: with the exemption question answered `No ☑` (so no
exemption is claimed), a checked f1 sub-category still yields its error —
the sub-category findings are not gated on the exemption answer. -/
theorem c6_counterexample :
    searchAnchorNlAlts (sliceSection c6Stream part0Marker "Part 1: Cover Sheet")
      "Do you think this research is eligible for an Exemption" ynAlts = some "No ☑" ∧
    (validate_part_0 c6Stream).2 = false ∧
    "Exemption category 'f1' is checked. Must be unchecked (☐)." ∈
      (validate_part_0 c6Stream).1.errors := by decide

theorem p0CatStep_mem_errors (text : String) (r : FindingSet) (c : String × String × String)
    (m : String) (h : m ∈ r.errors) : m ∈ (p0CatStep text r c).errors := by
  rcases hg : searchGlyphMid text c.2.1 c.2.2 with _ | g
  · simp [p0CatStep, hg, h]
  · simp only [p0CatStep, hg]
    split <;> simp [h]

theorem p0CatFold_mem_errors (text : String) (l : List (String × String × String)) :
    ∀ (r : FindingSet) (m : String), m ∈ r.errors →
      m ∈ (l.foldl (p0CatStep text) r).errors := by
  induction l with
  | nil => intro r m h; simpa using h
  | cons c t ih =>
    intro r m h
    simpa [List.foldl] using ih (p0CatStep text r c) m (p0CatStep_mem_errors text r c m h)

theorem p0CatFold_emit (text : String) (l : List (String × String × String))
    (c : String × String × String) (hc : c ∈ l) (m : String)
    (hstep : ∀ r : FindingSet, m ∈ (p0CatStep text r c).errors) :
    ∀ r : FindingSet, m ∈ (l.foldl (p0CatStep text) r).errors := by
  induction l with
  | nil => cases hc
  | cons g t ih =>
    intro r
    rcases List.mem_cons.mp hc with h | h
    · subst h
      simpa [List.foldl] using p0CatFold_mem_errors text t _ m (hstep r)
    · simpa [List.foldl] using ih h (p0CatStep text r g)

/-- C6 amended: when the exemption question is answered `Yes ☑` a missing
or empty justification yields a warning (never an error), and the
justification block runs only under that answer; the sub-category checks,
however, run unconditionally: a checked box yields its error whatever the
exemption answer was, and an unchecked box yields only an info. -/
theorem c6_exemption_rules :
    (∀ (text : String) (r : FindingSet), p0ExemptionJust text false r = r) ∧
    (∀ (text : String) (r : FindingSet),
      (∀ v, captureAnchor text "Outline the reasons why your study should be considered exempt:"
        "Part 1:" = some v → pyStrip v = "") →
      p0ExemptionJust text true r =
        r.addWarn "Exemption claimed, but no justification provided.") ∧
    (∀ (ps : List String) (cat : String × String × String), cat ∈ p0Categories →
      ¬ sliceSection ps part0Marker "Part 1: Cover Sheet" = "" →
      searchGlyphMid (sliceSection ps part0Marker "Part 1: Cover Sheet") cat.2.1 cat.2.2 =
        some "☑" →
      ("Exemption category '" ++ cat.1 ++ "' is checked. Must be unchecked (☐).") ∈
        (validate_part_0 ps).1.errors) ∧
    (∀ (text : String) (r : FindingSet) (cat : String × String × String),
      searchGlyphMid text cat.2.1 cat.2.2 = some "☐" →
      p0CatStep text r cat =
        r.addInfo ("Exemption category '" ++ cat.1 ++ "' is correctly unchecked (☐).")) := by
  refine ⟨?_, ?_, ?_, ?_⟩
  · intro text r
    simp [p0ExemptionJust]
  · intro text r h
    rcases hcap : captureAnchor text
      "Outline the reasons why your study should be considered exempt:" "Part 1:" with _ | v
    · simp [p0ExemptionJust, hcap]
    · simp [p0ExemptionJust, hcap, h v hcap]
  · intro ps cat hc htext hg
    unfold validate_part_0
    rw [if_neg htext]
    simp only [part0OfText]
    refine p0CatFold_emit _ p0Categories cat hc _ ?_ _
    intro r
    simp [p0CatStep, hg]
  · intro text r cat hg
    simp [p0CatStep, hg]

/-- C6 witness: the amended clauses at concrete inputs. -/
theorem c6_exemption_rules_witness :
    p0ExemptionJust "no exemption text here" false {} = {} ∧
    "Exemption category 'f1' is checked. Must be unchecked (☐)." ∈
      (validate_part_0 c6Stream).1.errors :=
  ⟨c6_exemption_rules.1 "no exemption text here" {},
   c6_exemption_rules.2.2.1 c6Stream
     ("f1", "f1 ", " Research conducted in established or commonly accepted educational settings")
     (by decide) (by decide) (by decide)⟩

/-- C7 counterexample: 2023-10-13 is exactly three calendar years minus one
day before 2026-10-12 (the span holds the leap day, so it is 1095 days),
yet at noon of 2026-10-12 the check `citi_date < now - timedelta(days=3*365)`
flags it and `validate_part_2` reports the training-date error — the claim
that such a date always passes is false. -/
theorem c7_counterexample :
    PDate.toDays ⟨2026, 10, 12⟩ = PDate.toDays ⟨2023, 10, 13⟩ + 1095 ∧
    PDate.toDays ⟨2026, 10, 13⟩ = PDate.toDays ⟨2023, 10, 13⟩ + 1096 ∧
    citiDateTooOld c7Now ⟨2023, 10, 13⟩ = true ∧
    "PI CITI Training date is older than 3 years." ∈
      (validate_part_2 c7Stream c7Now).1.errors := by decide

/-- C7 amended: the gate compares the parsed midnight against `now` minus
1095 days (3 × 365, leap days ignored).  A well-formed date 1096 or more
days before the current date always errors (this covers every date older
than three calendar years), a date 1094 or fewer days before never
errors, and a date exactly 1095 days before — which "three years minus
one day" is whenever the span holds a leap day — errors exactly when the
current time of day is past midnight. -/
theorem c7_training_date_gate (nd d : PDate) (tod : Nat) (h : tod < 86400) :
    (PDate.toDays d + 1096 ≤ PDate.toDays nd →
      citiDateTooOld (nd.toSeconds + tod) d = true) ∧
    (PDate.toDays nd ≤ PDate.toDays d + 1094 →
      citiDateTooOld (nd.toSeconds + tod) d = false) ∧
    (PDate.toDays nd = PDate.toDays d + 1095 →
      (citiDateTooOld (nd.toSeconds + tod) d = true ↔ 0 < tod)) := by
  simp only [citiDateTooOld, PDate.toSeconds, decide_eq_true_eq, decide_eq_false_iff_not]
  refine ⟨fun hd => ?_, fun hd => ?_, fun hd => ?_⟩
  · omega
  · omega
  · constructor <;> intro hx <;> omega

/-- C7 witness: the boundary clauses at concrete dates. -/
theorem c7_training_date_gate_witness :
    citiDateTooOld ((⟨2026, 10, 12⟩ : PDate).toSeconds + 43200) ⟨2023, 10, 13⟩ = true ∧
    citiDateTooOld ((⟨2022, 10, 12⟩ : PDate).toSeconds + 43200) ⟨2022, 10, 11⟩ = false :=
  ⟨((c7_training_date_gate ⟨2026, 10, 12⟩ ⟨2023, 10, 13⟩ 43200 (by decide)).2.2
      (by decide)).mpr (by decide),
    (c7_training_date_gate ⟨2022, 10, 12⟩ ⟨2022, 10, 11⟩ 43200 (by decide)).2.1 (by decide)⟩

/-- C8: two runs of the pipeline at the same instant on the same stream and
file-name list agree on the parts mapping and the required-forms list
(submission id and timestamp excepted); the embedding shows the outcome
is a function of the stream, the file names and the instant alone. -/
theorem c8_determinism (ps : List String) (fns : Option (List String)) (now : Int)
    (u1 t1 u2 t2 : String) :
    (validate_irec_application ps fns now u1 t1).map (fun r => (r.parts, r.required_forms)) =
    (validate_irec_application ps fns now u2 t2).map (fun r => (r.parts, r.required_forms)) := by
  unfold validate_irec_application
  dsimp only
  split <;> rfl

/-- C9: whenever the pipeline returns a report, the summary counters equal
the sums over the eleven parts of the lengths of the error, warning and
info lists. -/
theorem c9_summary_totals (ps : List String) (fns : Option (List String)) (now : Int)
    (u t : String) :
    (validate_irec_application ps fns now u t).map (fun r => r.summary) =
    (validate_irec_application ps fns now u t).map (fun r =>
      (⟨(r.parts.map (fun p => p.2.errors.length)).sum,
        (r.parts.map (fun p => p.2.warnings.length)).sum,
        (r.parts.map (fun p => p.2.info.length)).sum⟩ : Summary)) := by
  unfold validate_irec_application
  dsimp only
  split
  · rfl
  · simp only [Except.map, List.foldl, List.map, List.sum, List.foldr]
    refine congrArg Except.ok ?_
    simp only [Summary.mk.injEq]
    refine ⟨?_, ?_, ?_⟩ <;> omega

theorem validate_part_3_forms (ps : List String) :
    ∃ d, (validate_part_3 ps).2.1 = p3SeedForms ++ d := by
  unfold validate_part_3
  dsimp only
  split
  · exact ⟨[], by simp⟩
  · exact ⟨_, rfl⟩

theorem validate_part_4_forms (ps : List String) (forms : List RequiredForm) :
    ∃ d, (validate_part_4 ps forms).2 = forms ++ d := by
  unfold validate_part_4
  dsimp only
  split
  · exact ⟨[], by simp⟩
  · exact ⟨_, rfl⟩

theorem validate_part_5_forms (ps : List String) (forms : List RequiredForm) :
    ∃ d, (validate_part_5 ps forms).2.1 = forms ++ d := by
  unfold validate_part_5
  dsimp only
  split
  · exact ⟨[], by simp⟩
  · exact ⟨_, rfl⟩

theorem validate_part_6_forms (ps : List String) (forms : List RequiredForm) :
    ∃ d, (validate_part_6 ps forms).2.1 = forms ++ d := by
  unfold validate_part_6
  dsimp only
  split
  · exact ⟨[], by simp⟩
  · exact ⟨_, rfl⟩

theorem validate_part_7_forms (ps : List String) (forms : List RequiredForm) :
    ∃ d, (validate_part_7 ps forms).2 = forms ++ d := by
  unfold validate_part_7
  dsimp only
  split
  · exact ⟨[], by simp⟩
  · exact ⟨_, rfl⟩

theorem validate_part_8_forms (ps : List String) (forms : List RequiredForm)
    (a b c d e : String) (v : FindingSet × List RequiredForm)
    (h : validate_part_8 ps forms a b c d e = .ok v) : ∃ dl, v.2 = forms ++ dl := by
  unfold validate_part_8 at h
  dsimp only at h
  split at h
  · injection h with h2
    exact ⟨[], by simp [← h2]⟩
  · split at h
    · injection h with h2
      exact ⟨_, by rw [← h2]⟩
    · cases h

theorem validate_part_10_forms (ps : List String) (forms : List RequiredForm) :
    ∃ d, (validate_part_10 ps forms).2 = forms ++ d := by
  unfold validate_part_10
  dsimp only
  split
  · exact ⟨[], by simp⟩
  · exact ⟨_, rfl⟩

theorem validate_part_11_forms (ps : List String) (forms : List RequiredForm) (sn : String)
    (fns : Option (List String)) :
    (validate_part_11_and_checklist ps forms sn fns).2 = forms := by
  unfold validate_part_11_and_checklist
  dsimp only
  split
  · rfl
  · split
    · rfl
    · split <;> rfl

theorem seed_append_take (l : List RequiredForm) (hl : ∃ d, l = p3SeedForms ++ d) :
    l.take 2 = p3SeedForms ∧ l.isEmpty = false := by
  obtain ⟨d, rfl⟩ := hl
  constructor
  · rw [List.take_append_of_le_length (by simp [p3SeedForms])]
    rfl
  · simp [p3SeedForms]

theorem seed_append_chain (l l2 : List RequiredForm) (hl : ∃ d, l = p3SeedForms ++ d)
    (hstep : ∃ d, l2 = l ++ d) : ∃ d, l2 = p3SeedForms ++ d := by
  obtain ⟨d1, rfl⟩ := hl
  obtain ⟨d2, rfl⟩ := hstep
  exact ⟨d1 ++ d2, by simp⟩

/-- C10: whenever the pipeline returns a report, its required-forms list is
non-empty and its first two entries are the Appendix A and CITI forms:
the orchestrator's own seed list is discarded in favor of the list
`validate_part_3` returns, which carries the two seeds on both its
branches, and every later validator only appends. -/
theorem c10_seed_forms (ps : List String) (fns : Option (List String)) (now : Int)
    (u t : String) :
    (validate_irec_application ps fns now u t).map
      (fun r => (r.required_forms.take 2, r.required_forms.isEmpty)) =
    (validate_irec_application ps fns now u t).map (fun _ => (p3SeedForms, false)) := by
  unfold validate_irec_application
  dsimp only
  split
  · rfl
  next v8 h8 =>
    have h3 := validate_part_3_forms ps
    have h4 := seed_append_chain _ _ h3 (validate_part_4_forms ps _)
    have h5 := seed_append_chain _ _ h4 (validate_part_5_forms ps _)
    have h6 := seed_append_chain _ _ h5 (validate_part_6_forms ps _)
    have h7 := seed_append_chain _ _ h6 (validate_part_7_forms ps _)
    have h8f := seed_append_chain _ _ h7 (validate_part_8_forms ps _ _ _ _ _ _ v8 h8)
    have h10 := seed_append_chain _ _ h8f (validate_part_10_forms ps _)
    have h11 : (validate_part_11_and_checklist ps (validate_part_10 ps v8.2).2
        (validate_part_2 ps now).2 fns).2 = (validate_part_10 ps v8.2).2 :=
      validate_part_11_forms ps _ _ fns
    have hfin := seed_append_take _ (h11 ▸ h10)
    simp only [Except.map]
    rw [hfin.1, hfin.2]
